import Mathlib

/-!
Shallow embedding of the clock-tree engine of the repository
(the stm32_clktree part of hw/arm/prusa/stm32f407): clock nodes, wiring,
mutation, recalculation and propagation, with observer notifications and the
over-frequency diagnostic modelled as an event trace.
-/

/-- Width bound of the C type uint32_t: stored frequencies are reduced modulo this. -/
def U32 : Nat := 2 ^ 32

/-- Nodes are identified by stable natural-number ids standing for the C pointers. -/
abbrev ClkId := Nat

/-- Observable side effects of the engine: a qemu_set_irq pulse to a registered
observer (the notification loop of clktree_recalc_output_freq), and the advisory
over-frequency fprintf diagnostic of the same function. -/
inductive Event where
  | notify (clk : ClkId) (target : Nat)
  | overMax (clk : ClkId) (freq : Nat) (maxFreq : Nat)
deriving DecidableEq

/-- The node an event belongs to. -/
def Event.clkOf : Event → ClkId
  | .notify c _ => c
  | .overMax c _ _ => c

/-- One clock node (struct Clk of stm32_clk_type.h; that header is not in the
source pack, so the fields follow their uses in the .c file).  Machine integers
are modelled as Nat: input_freq and output_freq are uint32 values (the
operations keep them below U32), multiplier and divisor are uint16 values,
selected_input is a C int.  The input list models the input array together with
input_count (its length); index 0 is the reserved NULL entry, modelled as none.
The user list holds the registered qemu_irq observers, identified by numbers. -/
structure Clk where
  name : String
  input_freq : Nat
  output_freq : Nat
  max_output_freq : Nat
  multiplier : Nat
  divisor : Nat
  enabled : Bool
  user : List Nat
  output : List ClkId
  input : List (Option ClkId)
  selected_input : Int
  is_initialized : Bool
deriving DecidableEq

/-- The heap of clock nodes: a total map from ids to nodes, so that every
pointer dereference of the C code lands on some node. -/
def ClkTree := ClkId → Clk

/-- Pointwise heap update, modelling a write through a node pointer. -/
def update (t : ClkTree) (i : ClkId) (c : Clk) : ClkTree := fun j => if j = i then c else t j

/-- Modelled from the spec: CLKTREE_NO_INPUT, the "no input" sentinel stored in
selected_input (stm32_clk_type.h is missing from the source pack).  The .c code
forces the value -1: clktree_set_selected_input treats selected_input > -1 as
"has an input" and clktree_get_input_clk reads input[selected_input + 1]
against the reserved input[0] = NULL. -/
def CLKTREE_NO_INPUT : Int := -1

/-- Modelled from the spec: CLKTREE_NO_MAX_FREQ, the "no ceiling" default that
clktree_create_generic stores in max_output_freq (stm32_clk_type.h is missing
from the source pack).  The spec calls max_output_freq an optional advisory
ceiling; the largest uint32 value disables the advisory for every storable
output frequency. -/
def CLKTREE_NO_MAX_FREQ : Nat := U32 - 1

/-- Modelled from the spec: muldiv64 of qemu/host-utils.h (not in the source
pack), per the spec words "using an intermediate width wide enough that
input_freq * multiplier cannot overflow before the division": the exact floor
quotient of the exact product.  Division by zero is undefined behaviour in C;
the Nat model yields 0 there and newOutputFreqChecked tracks definedness. -/
def muldiv64 (a b c : Nat) : Nat := a * b / c

/-- The recalculated output frequency computed by clktree_recalc_output_freq:
enabled ? muldiv64(input_freq, multiplier, divisor) : 0, truncated by the
assignment to the uint32_t local new_output_freq. -/
def newOutputFreq (c : Clk) : Nat :=
  if c.enabled then muldiv64 c.input_freq c.multiplier c.divisor % U32 else 0

/-- The output a node produces from a given input frequency: the same formula
with the input frequency made explicit. -/
def gateFreq (c : Clk) (f : Nat) : Nat :=
  if c.enabled then muldiv64 f c.multiplier c.divisor % U32 else 0

/-- Definedness-tracking version of the frequency computation: the code calls
muldiv64 with divisor as the divisor and no guard, so an enabled node with
divisor = 0 reaches an undefined division (claim C10). -/
def newOutputFreqChecked (c : Clk) : Option Nat :=
  if c.enabled then
    if c.divisor = 0 then none
    else some (muldiv64 c.input_freq c.multiplier c.divisor % U32)
  else some 0

/-- clktree_get_input_clk: clk->input[clk->selected_input + 1].  For the
well-formed states the engine produces, selected_input + 1 is a valid index
(index 0 holds the NULL entry, modelled as none); any other value would be an
out-of-bounds read in C and defaults to none here. -/
def getInputClk (c : Clk) : Option ClkId :=
  c.input.getD (c.selected_input + 1).toNat none

/-- The fan-out loop at the end of clktree_recalc_output_freq: visit each child
in order, skipping children whose currently selected input is not the
propagating node p; the engine instantiates visit with clktree_set_input_freq
one fuel step down. -/
def propagateChildren (visit : ClkTree → ClkId → Nat → ClkTree × List Event)
    (p : ClkId) (f : Nat) : ClkTree → List ClkId → ClkTree × List Event
  | t, [] => (t, [])
  | t, ch :: rest =>
    if getInputClk (t ch) = some p then
      let r1 := visit t ch f
      let r2 := propagateChildren visit p f r1.1 rest
      (r2.1, r1.2 ++ r2.2)
    else
      propagateChildren visit p f t rest

/-- clktree_recalc_output_freq.  The C recursion terminates because wiring is
leaf-first (fan-out edges point to later-created nodes); the model makes that
explicit with a fuel argument, and the theorems show the recursion completes
whenever fuel + node id covers the id bound of the Wired predicate. -/
def recalcF : Nat → ClkTree → ClkId → ClkTree × List Event
  | 0, t, _ => (t, [])
  | Nat.succ fuel, t, i =>
    let c := t i
    let newf := newOutputFreq c
    if newf = c.output_freq then (t, [])
    else
      let t1 := update t i { c with output_freq := newf }
      let pr := propagateChildren
        (fun t2 ch g => recalcF fuel (update t2 ch { t2 ch with input_freq := g }) ch)
        i newf t1 c.output
      (pr.1,
        (if c.max_output_freq < newf then [Event.overMax i newf c.max_output_freq] else [])
          ++ c.user.map (fun u => Event.notify i u) ++ pr.2)

/-- clktree_set_input_freq: store the input frequency, then recalculate. -/
def clktree_set_input_freq (fuel : Nat) (t : ClkTree) (i : ClkId) (f : Nat) :
    ClkTree × List Event :=
  recalcF fuel (update t i { t i with input_freq := f }) i

/-- clktree_set_scale: store multiplier and divisor (no validation), then
recalculate. -/
def clktree_set_scale (fuel : Nat) (t : ClkTree) (i : ClkId) (m d : Nat) :
    ClkTree × List Event :=
  recalcF fuel (update t i { t i with multiplier := m, divisor := d }) i

/-- clktree_set_enabled: store the gate, then recalculate. -/
def clktree_set_enabled (fuel : Nat) (t : ClkTree) (i : ClkId) (en : Bool) :
    ClkTree × List Event :=
  recalcF fuel (update t i { t i with enabled := en }) i

/-- clktree_set_selected_input: assert((selected_input + 1) < clk->input_count),
then store the selection, read the newly selected source's output_freq (0 when
there is none), and call clktree_set_input_freq.  The Bool is false exactly
when the assert fails; the C program aborts there, before any store.
input_count is the length of the input list; selected_input is a C int, so the
assert comparison is signed (any count type of conversion rank at most int is
promoted to int).  In the branch reading the selected source, the none case
models a NULL dereference that well-formed nodes never reach. -/
def clktree_set_selected_input (fuel : Nat) (t : ClkTree) (i : ClkId) (sel : Int) :
    ClkTree × List Event × Bool :=
  if sel + 1 < ((t i).input.length : Int) then
    let t1 := update t i { t i with selected_input := sel }
    let f : Nat :=
      if -1 < sel then
        match getInputClk (t1 i) with
        | some s => (t1 s).output_freq
        | none => 0
      else 0
    let r := clktree_set_input_freq fuel t1 i f
    (r.1, r.2, true)
  else
    (t, [], false)

/-- clktree_create_generic. -/
def clktree_create_generic (t : ClkTree) (i : ClkId) (nm : String) (m d : Nat)
    (en : Bool) : ClkTree :=
  update t i
    { name := nm, input_freq := 0, output_freq := 0,
      max_output_freq := CLKTREE_NO_MAX_FREQ,
      multiplier := m, divisor := d, enabled := en,
      user := [], output := [], input := [none],
      selected_input := CLKTREE_NO_INPUT, is_initialized := true }

/-- clktree_create_src_clk. -/
def clktree_create_src_clk (fuel : Nat) (t : ClkTree) (i : ClkId) (nm : String)
    (srcFreq : Nat) (en : Bool) : ClkTree × List Event :=
  clktree_set_input_freq fuel (clktree_create_generic t i nm 1 1 en) i srcFreq

/-- The variadic wiring loop of clktree_create_clk: for each input clock,
CLKTREE_ADD_LINK appends it (wrapped in some) to the new node's input list and
appends the new node to that input's output list, asserting each count against
its capacity right after the append; the first failed assert aborts (Bool
false), leaving the appends made so far in place. -/
def addInputs (maxInput maxOutput : Nat) (t : ClkTree) (i : ClkId) :
    List ClkId → ClkTree × Bool
  | [] => (t, true)
  | s :: rest =>
    let ci := t i
    let t1 := update t i { ci with input := ci.input ++ [some s] }
    if (t1 i).input.length ≤ maxInput then
      let cs := t1 s
      let t2 := update t1 s { cs with output := cs.output ++ [i] }
      if (t2 s).output.length ≤ maxOutput then
        addInputs maxInput maxOutput t2 i rest
      else (t2, false)
    else (t1, false)

set_option linter.unusedVariables false in
/-- clktree_create_clk: clktree_create_generic, the wiring loop, then
clktree_set_selected_input.  The maxFreq argument mirrors the C parameter
max_output_freq, which the C body never stores anywhere —
clktree_create_generic has already set CLKTREE_NO_MAX_FREQ and no later
statement touches the field (claim C5).  The Bool is false when a capacity
assert or the selection assert fails. -/
def clktree_create_clk (fuel maxInput maxOutput : Nat) (t : ClkTree) (i : ClkId)
    (nm : String) (m d : Nat) (en : Bool) (maxFreq : Nat) (sel : Int)
    (inputs : List ClkId) : ClkTree × List Event × Bool :=
  let t1 := clktree_create_generic t i nm m d en
  let w := addInputs maxInput maxOutput t1 i inputs
  if w.2 then clktree_set_selected_input fuel w.1 i sel
  else (w.1, [], false)

/-- clktree_adduser: CLKTREE_ADD_LINK on the observer list — append, then
assert the grown count against CLKTREE_MAX_IRQ (the capacity is a parameter
here, exactly as the macro receives it).  Bool false means the assert failed;
the append has already happened when it fires. -/
def clktree_adduser (maxIrq : Nat) (t : ClkTree) (i : ClkId) (u : Nat) :
    ClkTree × Bool :=
  let c := t i
  let t1 := update t i { c with user := c.user ++ [u] }
  (t1, decide ((t1 i).user.length ≤ maxIrq))

/-- clktree_is_enabled: a read-only query of a single node. -/
def clktree_is_enabled (c : Clk) : Bool := c.enabled && c.is_initialized

/-- clktree_get_output_freq: a read-only query of a single node. -/
def clktree_get_output_freq (c : Clk) : Nat := c.output_freq

/-- The spec invariant for one node: output_freq equals
enabled ? input_freq * multiplier / divisor : 0, in the code's own uint32
arithmetic. -/
abbrev localInv (c : Clk) : Prop := c.output_freq = newOutputFreq c

/-- All fields except the two frequency fields agree: recalculation and
propagation never touch topology, selection, scale, gate, observers or
metadata. -/
def SameShape (c c2 : Clk) : Prop :=
  c2.name = c.name ∧ c2.max_output_freq = c.max_output_freq ∧
  c2.multiplier = c.multiplier ∧ c2.divisor = c.divisor ∧
  c2.enabled = c.enabled ∧ c2.user = c.user ∧ c2.output = c.output ∧
  c2.input = c.input ∧ c2.selected_input = c.selected_input ∧
  c2.is_initialized = c.is_initialized

/-- Pointwise SameShape of two heaps. -/
def SameShapeT (t t2 : ClkTree) : Prop := ∀ j, SameShape (t j) (t2 j)

/-- Leaf-first wiring: every fan-out edge goes to a strictly later node id and
stays below the bound N.  This is the construction discipline of the spec (a
node cannot declare as input a node created after it), which also bounds the
recursion depth of the propagation. -/
def Wired (t : ClkTree) (N : Nat) : Prop :=
  ∀ (k j : Nat), j ∈ (t k).output → k < j ∧ j < N

/-- Selected-descendant relation: the nodes a recalculation starting at p can
reach, following fan-out edges whose child currently selects the propagating
parent. -/
inductive SelDesc (t : ClkTree) (p : ClkId) : ClkId → Prop where
  | base : SelDesc t p p
  | step {j ch : ClkId} : SelDesc t p j → ch ∈ (t j).output →
      getInputClk (t ch) = some j → SelDesc t p ch

/-- Reading back the updated node. -/
theorem update_self (t : ClkTree) (i : ClkId) (c : Clk) : update t i c i = c := by
  simp [update]

/-- Reading any other node is unaffected by an update. -/
theorem update_ne (t : ClkTree) (i : ClkId) (c : Clk) {j : ClkId} (h : j ≠ i) :
    update t i c j = t j := by
  simp [update, h]

/-- recalcF with no fuel does nothing (never reached under the Wired bound). -/
theorem recalcF_zero (t : ClkTree) (i : ClkId) : recalcF 0 t i = (t, []) := rfl

/-- The early-out branch of clktree_recalc_output_freq: an unchanged output
frequency stops everything. -/
theorem recalcF_stop (fuel : Nat) (t : ClkTree) (i : ClkId)
    (h : newOutputFreq (t i) = (t i).output_freq) : recalcF fuel t i = (t, []) := by
  cases fuel with
  | zero => rfl
  | succ fuel => simp [recalcF, h]

/-- The visit function recalcF hands to propagateChildren at a given fuel:
exactly clktree_set_input_freq one fuel step down. -/
def visitF (fuel : Nat) : ClkTree → ClkId → Nat → ClkTree × List Event :=
  fun t2 ch g => recalcF fuel (update t2 ch { t2 ch with input_freq := g }) ch

/-- The changed branch of clktree_recalc_output_freq: store, diagnose, notify,
propagate. -/
theorem recalcF_go (fuel : Nat) (t : ClkTree) (i : ClkId)
    (h : ¬ newOutputFreq (t i) = (t i).output_freq) :
    recalcF (fuel + 1) t i =
      ((propagateChildren (visitF fuel) i (newOutputFreq (t i))
          (update t i { t i with output_freq := newOutputFreq (t i) }) ((t i).output)).1,
        (if (t i).max_output_freq < newOutputFreq (t i) then
            [Event.overMax i (newOutputFreq (t i)) ((t i).max_output_freq)] else [])
          ++ (t i).user.map (fun u => Event.notify i u)
          ++ (propagateChildren (visitF fuel) i (newOutputFreq (t i))
              (update t i { t i with output_freq := newOutputFreq (t i) }) ((t i).output)).2) := by
  simp only [recalcF, if_neg h]
  rfl

/-- propagateChildren on the empty child list. -/
theorem propagateChildren_nil (visit : ClkTree → ClkId → Nat → ClkTree × List Event)
    (p : ClkId) (f : Nat) (t : ClkTree) : propagateChildren visit p f t [] = (t, []) := rfl

/-- propagateChildren visits a child that currently selects the propagating node. -/
theorem propagateChildren_cons_sel (visit : ClkTree → ClkId → Nat → ClkTree × List Event)
    (p : ClkId) (f : Nat) (t : ClkTree) (ch : ClkId) (rest : List ClkId)
    (h : getInputClk (t ch) = some p) :
    propagateChildren visit p f t (ch :: rest) =
      ((propagateChildren visit p f (visit t ch f).1 rest).1,
        (visit t ch f).2 ++ (propagateChildren visit p f (visit t ch f).1 rest).2) := by
  simp only [propagateChildren, if_pos h]

/-- propagateChildren skips a child whose current selection is another node. -/
theorem propagateChildren_cons_skip (visit : ClkTree → ClkId → Nat → ClkTree × List Event)
    (p : ClkId) (f : Nat) (t : ClkTree) (ch : ClkId) (rest : List ClkId)
    (h : ¬ getInputClk (t ch) = some p) :
    propagateChildren visit p f t (ch :: rest) = propagateChildren visit p f t rest := by
  simp only [propagateChildren, if_neg h]

theorem SameShape.rfl (c : Clk) : SameShape c c := by
  simp [SameShape]

theorem SameShape.trans {a b c : Clk} (h1 : SameShape a b) (h2 : SameShape b c) :
    SameShape a c := by
  obtain ⟨e1, e2, e3, e4, e5, e6, e7, e8, e9, e10⟩ := h1
  obtain ⟨f1, f2, f3, f4, f5, f6, f7, f8, f9, f10⟩ := h2
  exact ⟨f1.trans e1, f2.trans e2, f3.trans e3, f4.trans e4, f5.trans e5,
    f6.trans e6, f7.trans e7, f8.trans e8, f9.trans e9, f10.trans e10⟩

theorem SameShape.nm {c c2 : Clk} (h : SameShape c c2) : c2.name = c.name := h.1
theorem SameShape.maxf {c c2 : Clk} (h : SameShape c c2) :
    c2.max_output_freq = c.max_output_freq := h.2.1
theorem SameShape.mul {c c2 : Clk} (h : SameShape c c2) : c2.multiplier = c.multiplier :=
  h.2.2.1
theorem SameShape.div {c c2 : Clk} (h : SameShape c c2) : c2.divisor = c.divisor :=
  h.2.2.2.1
theorem SameShape.enab {c c2 : Clk} (h : SameShape c c2) : c2.enabled = c.enabled :=
  h.2.2.2.2.1
theorem SameShape.usr {c c2 : Clk} (h : SameShape c c2) : c2.user = c.user :=
  h.2.2.2.2.2.1
theorem SameShape.out {c c2 : Clk} (h : SameShape c c2) : c2.output = c.output :=
  h.2.2.2.2.2.2.1
theorem SameShape.inp {c c2 : Clk} (h : SameShape c c2) : c2.input = c.input :=
  h.2.2.2.2.2.2.2.1
theorem SameShape.sel {c c2 : Clk} (h : SameShape c c2) :
    c2.selected_input = c.selected_input := h.2.2.2.2.2.2.2.2.1
theorem SameShape.init {c c2 : Clk} (h : SameShape c c2) :
    c2.is_initialized = c.is_initialized := h.2.2.2.2.2.2.2.2.2

theorem sameShapeT_rfl (t : ClkTree) : SameShapeT t t := fun _ => SameShape.rfl _

theorem sameShapeT_trans {a b c : ClkTree} (h1 : SameShapeT a b) (h2 : SameShapeT b c) :
    SameShapeT a c := fun j => (h1 j).trans (h2 j)

/-- Updating a node with a shape-preserving record update preserves heap shape. -/
theorem sameShapeT_update {t : ClkTree} {i : ClkId} {c : Clk}
    (h : SameShape (t i) c) : SameShapeT t (update t i c) := by
  intro j
  by_cases hj : j = i
  · subst hj; rw [update_self]; exact h
  · rw [update_ne _ _ _ hj]; exact SameShape.rfl _

theorem sameShape_set_output (c : Clk) (x : Nat) :
    SameShape c { c with output_freq := x } := by
  simp [SameShape]

theorem sameShape_set_input (c : Clk) (x : Nat) :
    SameShape c { c with input_freq := x } := by
  simp [SameShape]

/-- getInputClk only looks at shape-preserved fields. -/
theorem getInputClk_shape {c c2 : Clk} (h : SameShape c c2) :
    getInputClk c2 = getInputClk c := by
  rw [getInputClk, getInputClk, h.inp, h.sel]

/-- Wired only looks at the output lists, which SameShape preserves. -/
theorem wired_shape {t t2 : ClkTree} {N : Nat} (h : SameShapeT t t2) (hw : Wired t N) :
    Wired t2 N := by
  intro k j hj
  rw [(h k).out] at hj
  exact hw k j hj

/-- Updating one node without changing its fan-out list preserves Wired. -/
theorem wired_update {t : ClkTree} {N : Nat} {i : ClkId} {c : Clk}
    (hw : Wired t N) (hout : c.output = (t i).output) : Wired (update t i c) N := by
  intro k j hj
  by_cases hk : k = i
  · subst hk; rw [update_self, hout] at hj; exact hw _ j hj
  · rw [update_ne _ _ _ hk] at hj; exact hw k j hj

/-- Storing the recomputed output into a node makes its invariant hold. -/
theorem localInv_set_output (c : Clk) :
    localInv { c with output_freq := newOutputFreq c } := by
  simp [localInv, newOutputFreq]

/-- Propagation preserves heap shape whenever each visit does. -/
theorem propagateChildren_shape (visit : ClkTree → ClkId → Nat → ClkTree × List Event)
    (hv : ∀ t ch f, SameShapeT t (visit t ch f).1) :
    ∀ (l : List ClkId) (t : ClkTree) (p : ClkId) (f : Nat),
      SameShapeT t (propagateChildren visit p f t l).1 := by
  intro l
  induction l with
  | nil => intro t p f; exact sameShapeT_rfl t
  | cons ch rest ihl =>
    intro t p f
    by_cases h : getInputClk (t ch) = some p
    · rw [propagateChildren_cons_sel _ _ _ _ _ _ h]
      exact sameShapeT_trans (hv t ch f) (ihl _ p f)
    · rw [propagateChildren_cons_skip _ _ _ _ _ _ h]
      exact ihl t p f

/-- Recalculation and propagation never change anything but the two frequency
fields of any node: topology, selection, scale, gate, observers and metadata
are preserved, with no wiring assumption at all. -/
theorem recalcF_shape : ∀ (fuel : Nat) (t : ClkTree) (i : ClkId),
    SameShapeT t (recalcF fuel t i).1 := by
  intro fuel
  induction fuel with
  | zero => intro t i; exact sameShapeT_rfl t
  | succ fuel ihf =>
    intro t i
    by_cases h : newOutputFreq (t i) = (t i).output_freq
    · rw [recalcF_stop _ _ _ h]; exact sameShapeT_rfl t
    · rw [recalcF_go fuel t i h]
      refine sameShapeT_trans
        (sameShapeT_update (sameShape_set_output (t i) (newOutputFreq (t i)))) ?_
      refine propagateChildren_shape _ ?_ _ _ _ _
      intro t2 ch g
      exact sameShapeT_trans
        (sameShapeT_update (sameShape_set_input (t2 ch) g)) (ihf _ _)

theorem selDesc_trans {t : ClkTree} {a b c : ClkId} (h1 : SelDesc t a b)
    (h2 : SelDesc t b c) : SelDesc t a c := by
  induction h2 with
  | base => exact h1
  | step h hm hsel ihd => exact SelDesc.step ihd hm hsel

/-- SelDesc only looks at shape-preserved fields of the heap. -/
theorem selDesc_shape {t t2 : ClkTree} (hs : SameShapeT t t2) {p j : ClkId}
    (h : SelDesc t2 p j) : SelDesc t p j := by
  induction h with
  | base => exact SelDesc.base
  | step h hm hsel ihd =>
    rw [(hs _).out] at hm
    rw [getInputClk_shape (hs _)] at hsel
    exact SelDesc.step ihd hm hsel

/-- Closure principle for SelDesc. -/
theorem selDesc_invariant {t : ClkTree} {p : ClkId} (P : ClkId → Prop) (hbase : P p)
    (hstep : ∀ j ch, P j → ch ∈ (t j).output → getInputClk (t ch) = some j → P ch) :
    ∀ {j}, SelDesc t p j → P j := by
  intro j h
  induction h with
  | base => exact hbase
  | step h hm hsel ihd => exact hstep _ _ ihd hm hsel

/-- Under leaf-first wiring, selected descendants have larger or equal ids. -/
theorem selDesc_le {t : ClkTree} {N : Nat} (hw : Wired t N) {p j : ClkId}
    (h : SelDesc t p j) : p ≤ j := by
  induction h with
  | base => exact Nat.le_refl p
  | step h hm hsel ihd => exact Nat.le_trans ihd (Nat.le_of_lt (hw _ _ hm).1)

/-- What one completed recalculation guarantees: the recalculated node holds
exactly its recomputed output (and nothing else of it changed); nodes with
smaller ids are untouched; every node is either untouched or satisfies the
invariant; only selected descendants are touched; and every emitted event
belongs to a selected descendant. -/
def RecalcConcl (fuel : Nat) (t : ClkTree) (i : ClkId) : Prop :=
  ((recalcF fuel t i).1 i = { t i with output_freq := newOutputFreq (t i) })
  ∧ (∀ j, j < i → (recalcF fuel t i).1 j = t j)
  ∧ (∀ j, (recalcF fuel t i).1 j = t j ∨ localInv ((recalcF fuel t i).1 j))
  ∧ (∀ j, (recalcF fuel t i).1 j ≠ t j → SelDesc t i j)
  ∧ (∀ e ∈ (recalcF fuel t i).2, SelDesc t i e.clkOf)

/-- What the fan-out loop guarantees, child list by child list: nodes up to
the propagating node are untouched; every node is untouched or satisfies the
invariant; touched nodes and events trace back to a visited child that
currently selects the propagating node. -/
def PropConcl (fuel : Nat) (t : ClkTree) (p : ClkId) (f : Nat) (l : List ClkId) : Prop :=
  (∀ j, j ≤ p → (propagateChildren (visitF fuel) p f t l).1 j = t j)
  ∧ (∀ j, (propagateChildren (visitF fuel) p f t l).1 j = t j ∨
      localInv ((propagateChildren (visitF fuel) p f t l).1 j))
  ∧ (∀ j, (propagateChildren (visitF fuel) p f t l).1 j ≠ t j →
      ∃ ch, ch ∈ l ∧ getInputClk (t ch) = some p ∧ SelDesc t ch j)
  ∧ (∀ e ∈ (propagateChildren (visitF fuel) p f t l).2,
      ∃ ch, ch ∈ l ∧ getInputClk (t ch) = some p ∧ SelDesc t ch e.clkOf)

/-- Correctness of the fan-out loop, assuming correctness of recalculation at
the current fuel on all heaps. -/
theorem propagate_spec (fuel N : Nat)
    (ih : ∀ (t : ClkTree) (i : Nat), Wired t N → i < N → N ≤ fuel + i →
      RecalcConcl fuel t i) :
    ∀ (l : List ClkId) (t : ClkTree) (p : Nat) (f : Nat),
      Wired t N → (∀ c2 : Nat, c2 ∈ l → p < c2 ∧ c2 < N) → N ≤ fuel + p + 1 →
      PropConcl fuel t p f l := by
  intro l
  induction l with
  | nil =>
    intro t p f hw hl hN
    simp [PropConcl, propagateChildren_nil]
  | cons ch rest ihl =>
    intro t p f hw hl hN
    have hch := hl ch (List.mem_cons_self ch rest)
    by_cases hsel : getInputClk (t ch) = some p
    · have hfuelch : N ≤ fuel + ch := by omega
      have hwA : Wired (update t ch { t ch with input_freq := f }) N :=
        wired_update hw rfl
      have hA : RecalcConcl fuel (update t ch { t ch with input_freq := f }) ch :=
        ih _ ch hwA hch.2 hfuelch
      have hshapeTA : SameShapeT t (update t ch { t ch with input_freq := f }) :=
        sameShapeT_update (sameShape_set_input (t ch) f)
      have hshapeA : SameShapeT t
          (recalcF fuel (update t ch { t ch with input_freq := f }) ch).1 :=
        sameShapeT_trans hshapeTA (recalcF_shape fuel _ ch)
      have hwA1 : Wired (recalcF fuel (update t ch { t ch with input_freq := f }) ch).1 N :=
        wired_shape hshapeA hw
      have hB : PropConcl fuel
          (recalcF fuel (update t ch { t ch with input_freq := f }) ch).1 p f rest :=
        ihl _ p f hwA1 (fun c2 hc2 => hl c2 (List.mem_cons_of_mem _ hc2)) hN
      simp only [PropConcl] at hB ⊢
      rw [propagateChildren_cons_sel _ _ _ _ _ _ hsel]
      simp only [visitF]
      obtain ⟨hA1, hA2, hA3, hA4, hA5⟩ := hA
      obtain ⟨hB1, hB2, hB3, hB4⟩ := hB
      refine ⟨?_, ?_, ?_, ?_⟩
      · intro j hj
        have h1 := hB1 j hj
        have h2 := hA2 j (Nat.lt_of_le_of_lt hj hch.1)
        have h3 := update_ne t ch { t ch with input_freq := f }
          (Nat.ne_of_lt (Nat.lt_of_le_of_lt hj hch.1))
        exact h1.trans (h2.trans h3)
      · intro j
        rcases hB2 j with hB2j | hB2j
        · by_cases hjch : j = ch
          · subst hjch
            right
            rw [hB2j, hA1, update_self]
            exact localInv_set_output _
          · rcases hA3 j with hA3j | hA3j
            · left
              rw [hB2j, hA3j, update_ne _ _ _ hjch]
            · right
              rw [hB2j]
              exact hA3j
        · right; exact hB2j
      · intro j hj
        by_cases hBj : (propagateChildren (visitF fuel) p f
            (recalcF fuel (update t ch { t ch with input_freq := f }) ch).1 rest).1 j =
            (recalcF fuel (update t ch { t ch with input_freq := f }) ch).1 j
        · rw [hBj] at hj
          by_cases hAj : (recalcF fuel (update t ch { t ch with input_freq := f }) ch).1 j =
              update t ch { t ch with input_freq := f } j
          · rw [hAj] at hj
            have hjch : j = ch := by
              by_contra hne
              exact hj (update_ne _ _ _ hne)
            subst hjch
            exact ⟨j, List.mem_cons_self _ _, hsel, SelDesc.base⟩
          · have hdesc := hA4 j hAj
            exact ⟨ch, List.mem_cons_self _ _, hsel, selDesc_shape hshapeTA hdesc⟩
        · obtain ⟨c2, hc2mem, hc2sel, hc2desc⟩ := hB3 j hBj
          rw [getInputClk_shape (hshapeA c2)] at hc2sel
          exact ⟨c2, List.mem_cons_of_mem _ hc2mem, hc2sel, selDesc_shape hshapeA hc2desc⟩
      · intro e he
        rw [List.mem_append] at he
        rcases he with he | he
        · have hdesc := hA5 e he
          exact ⟨ch, List.mem_cons_self _ _, hsel, selDesc_shape hshapeTA hdesc⟩
        · obtain ⟨c2, hc2mem, hc2sel, hc2desc⟩ := hB4 e he
          rw [getInputClk_shape (hshapeA c2)] at hc2sel
          exact ⟨c2, List.mem_cons_of_mem _ hc2mem, hc2sel, selDesc_shape hshapeA hc2desc⟩
    · have hB : PropConcl fuel t p f rest :=
        ihl t p f hw (fun c2 hc2 => hl c2 (List.mem_cons_of_mem _ hc2)) hN
      simp only [PropConcl] at hB ⊢
      rw [propagateChildren_cons_skip _ _ _ _ _ _ hsel]
      obtain ⟨hB1, hB2, hB3, hB4⟩ := hB
      refine ⟨hB1, hB2, ?_, ?_⟩
      · intro j hj
        obtain ⟨c2, hc2mem, hc2sel, hc2desc⟩ := hB3 j hj
        exact ⟨c2, List.mem_cons_of_mem _ hc2mem, hc2sel, hc2desc⟩
      · intro e he
        obtain ⟨c2, hc2mem, hc2sel, hc2desc⟩ := hB4 e he
        exact ⟨c2, List.mem_cons_of_mem _ hc2mem, hc2sel, hc2desc⟩

/-- Main correctness of clktree_recalc_output_freq on leaf-first wired heaps
with enough fuel: see RecalcConcl. -/
theorem recalcF_spec : ∀ (fuel : Nat) (N : Nat) (t : ClkTree) (i : Nat),
    Wired t N → i < N → N ≤ fuel + i → RecalcConcl fuel t i := by
  intro fuel
  induction fuel with
  | zero =>
    intro N t i hw hi hN
    exact ((by omega : False)).elim
  | succ fuel ihf =>
    intro N t i hw hi hN
    by_cases h : newOutputFreq (t i) = (t i).output_freq
    · have hr := recalcF_stop (fuel + 1) t i h
      unfold RecalcConcl
      rw [hr]
      refine ⟨?_, fun j hj => rfl, fun j => Or.inl rfl, fun j hj => absurd rfl hj, ?_⟩
      · show t i = { t i with output_freq := newOutputFreq (t i) }
        rw [h]
      · intro e he
        exact absurd he (List.not_mem_nil e)
    · have hw1 : Wired (update t i { t i with output_freq := newOutputFreq (t i) }) N :=
        wired_update hw rfl
      have hchild : ∀ c2 : Nat, c2 ∈ (t i).output → i < c2 ∧ c2 < N :=
        fun c2 hc2 => hw i c2 hc2
      have hN1 : N ≤ fuel + i + 1 := by omega
      have hp := propagate_spec fuel N (fun t2 i2 => ihf N t2 i2) ((t i).output)
        (update t i { t i with output_freq := newOutputFreq (t i) }) i
        (newOutputFreq (t i)) hw1 hchild hN1
      simp only [PropConcl] at hp
      obtain ⟨hp1, hp2, hp3, hp4⟩ := hp
      have hshape1 : SameShapeT t (update t i { t i with output_freq := newOutputFreq (t i) }) :=
        sameShapeT_update (sameShape_set_output (t i) (newOutputFreq (t i)))
      simp only [RecalcConcl, recalcF_go fuel t i h]
      refine ⟨?_, ?_, ?_, ?_, ?_⟩
      · have := hp1 i (Nat.le_refl i)
        rw [this, update_self]
      · intro j hj
        rw [hp1 j (Nat.le_of_lt hj), update_ne _ _ _ (Nat.ne_of_lt hj)]
      · intro j
        by_cases hji : j = i
        · subst hji
          right
          rw [hp1 j (Nat.le_refl j), update_self]
          exact localInv_set_output _
        · rcases hp2 j with h2 | h2
          · left; rw [h2, update_ne _ _ _ hji]
          · right; exact h2
      · intro j hj
        by_cases hji : j = i
        · subst hji; exact SelDesc.base
        · have hne : (propagateChildren (visitF fuel) i (newOutputFreq (t i))
              (update t i { t i with output_freq := newOutputFreq (t i) })
              ((t i).output)).1 j ≠
              update t i { t i with output_freq := newOutputFreq (t i) } j := by
            intro heq
            rw [heq, update_ne _ _ _ hji] at hj
            exact hj rfl
          obtain ⟨c2, hc2mem, hc2sel, hc2desc⟩ := hp3 j hne
          rw [getInputClk_shape (hshape1 c2)] at hc2sel
          have hstep : SelDesc t i c2 := SelDesc.step SelDesc.base hc2mem hc2sel
          exact selDesc_trans hstep (selDesc_shape hshape1 hc2desc)
      · intro e he
        rw [List.mem_append, List.mem_append] at he
        rcases he with (he | he) | he
        · have : e.clkOf = i := by
            rcases Nat.decLt (t i).max_output_freq (newOutputFreq (t i)) with hd | hd
            · simp [if_neg hd] at he
            · rw [if_pos hd] at he
              simp at he
              rw [he]
              rfl
          rw [this]
          exact SelDesc.base
        · have : e.clkOf = i := by
            rw [List.mem_map] at he
            obtain ⟨u, hu, hue⟩ := he
            rw [← hue]
            rfl
          rw [this]
          exact SelDesc.base
        · obtain ⟨c2, hc2mem, hc2sel, hc2desc⟩ := hp4 e he
          rw [getInputClk_shape (hshape1 c2)] at hc2sel
          have hstep : SelDesc t i c2 := SelDesc.step SelDesc.base hc2mem hc2sel
          exact selDesc_trans hstep (selDesc_shape hshape1 hc2desc)

/-- The wiring data that SelDesc and getInputClk depend on: fan-out lists,
candidate-input lists and current selections agree on the two heaps. -/
def SameWiring (t t2 : ClkTree) : Prop :=
  ∀ j : Nat, (t2 j).output = (t j).output ∧ (t2 j).input = (t j).input ∧
    (t2 j).selected_input = (t j).selected_input

theorem sameWiring_update {t : ClkTree} {i : ClkId} {c : Clk}
    (hout : c.output = (t i).output) (hin : c.input = (t i).input)
    (hsel : c.selected_input = (t i).selected_input) : SameWiring t (update t i c) := by
  intro j
  by_cases hj : j = i
  · subst hj; rw [update_self]; exact ⟨hout, hin, hsel⟩
  · rw [update_ne _ _ _ hj]; exact ⟨rfl, rfl, rfl⟩

theorem getInputClk_wiring {t t2 : ClkTree} (h : SameWiring t t2) (j : ClkId) :
    getInputClk (t2 j) = getInputClk (t j) := by
  rw [getInputClk, getInputClk, (h j).2.1, (h j).2.2]

theorem selDesc_wiring {t t2 : ClkTree} (hs : SameWiring t t2) {p j : ClkId}
    (h : SelDesc t2 p j) : SelDesc t p j := by
  induction h with
  | base => exact SelDesc.base
  | step h hm hsel ihd =>
    rw [(hs _).1] at hm
    rw [getInputClk_wiring hs _] at hsel
    exact SelDesc.step ihd hm hsel

/-- A node with no fan-out edges has itself as its only selected descendant. -/
theorem selDesc_only_self {t : ClkTree} {p : ClkId} (hout : (t p).output = [])
    {j : ClkId} (h : SelDesc t p j) : j = p := by
  refine selDesc_invariant (fun x => x = p) rfl ?_ h
  intro j2 ch hj2 hmem hsel
  subst hj2
  rw [hout] at hmem
  exact absurd hmem (List.not_mem_nil ch)

/-- Setting the input frequency field realizes gateFreq. -/
theorem newOutputFreq_set_input (c : Clk) (x : Nat) :
    newOutputFreq { c with input_freq := x } = gateFreq c x := rfl

theorem newOutputFreq_eq_gate (c : Clk) : newOutputFreq c = gateFreq c c.input_freq := rfl

/-- The invariant only concerns frequency, gate and scale fields: growing the
fan-out list preserves it. -/
theorem localInv_set_outlist (c : Clk) (x : List ClkId) (h : localInv c) :
    localInv { c with output := x } := by
  simpa [localInv, newOutputFreq] using h

/-- A disconnected placeholder node used to populate example heaps. -/
def baseClk : Clk :=
  { name := "base", input_freq := 0, output_freq := 0,
    max_output_freq := CLKTREE_NO_MAX_FREQ, multiplier := 1, divisor := 1,
    enabled := true, user := [], output := [], input := [none],
    selected_input := -1, is_initialized := true }

/-- A heap holding only disconnected placeholder nodes. -/
def baseTree : ClkTree := fun _ => baseClk

theorem wired_baseTree (N : Nat) : Wired baseTree N := by
  intro k j hj
  simp [baseTree, baseClk] at hj

/-- Example heap: node 0 is a source feeding node 1, its only consumer. -/
def pairTree : ClkTree := fun j =>
  if j = 0 then
    { baseClk with
      name := "src", input_freq := 1000, output_freq := 1000, output := [1] }
  else
    { baseClk with
      name := "dev", input := [none, some 0], selected_input := 0,
      input_freq := 1000, output_freq := 1000 }

theorem wired_pairTree : Wired pairTree 2 := by
  intro k j hj
  by_cases hk : k = 0
  · subst hk
    simp [pairTree, baseClk] at hj
    omega
  · simp [pairTree, hk, baseClk] at hj

/-- Example heap for the mux counterexample: node 2 has candidates node 0 and
node 1 and currently selects node 1, while node 1 itself selects node 0. -/
def muxTree : ClkTree := fun j =>
  if j = 0 then
    { baseClk with
      name := "p", input_freq := 1000, output_freq := 1000, output := [1, 2] }
  else if j = 1 then
    { baseClk with
      name := "q", input_freq := 1000, output_freq := 1000,
      input := [none, some 0], selected_input := 0, output := [2] }
  else
    { baseClk with
      name := "n", input_freq := 1000, output_freq := 1000, user := [7],
      input := [none, some 0, some 1], selected_input := 1 }

/-- Example heap for the amended mux claim: two sources (nodes 0 and 1) are the
candidates of mux node 2, which selects node 0. -/
def mux2Tree : ClkTree := fun j =>
  if j = 0 then
    { baseClk with
      name := "sA", input_freq := 4000000, output_freq := 4000000, output := [2] }
  else if j = 1 then
    { baseClk with
      name := "sB", input_freq := 6000000, output_freq := 6000000, output := [2] }
  else
    { baseClk with
      name := "m", input := [none, some 0, some 1], selected_input := 0,
      input_freq := 4000000, output_freq := 4000000, user := [9] }

theorem wired_mux2Tree : Wired mux2Tree 3 := by
  intro k j hj
  by_cases hk0 : k = 0
  · subst hk0
    simp [mux2Tree, baseClk] at hj
    omega
  · by_cases hk1 : k = 1
    · subst hk1
      simp [mux2Tree, baseClk] at hj
      omega
    · simp [mux2Tree, hk0, hk1, baseClk] at hj

theorem selDesc_mux2_not_two : ¬ SelDesc mux2Tree 1 2 := by
  intro hdesc
  have hstep : ∀ (j2 ch : ClkId), j2 = 1 → ch ∈ (mux2Tree j2).output →
      getInputClk (mux2Tree ch) = some j2 → ch = 1 := by
    intro j2 ch hj2 hmem hsel
    subst hj2
    exfalso
    have hch : ch = 2 := by
      simp [mux2Tree, baseClk] at hmem
      exact hmem
    subst hch
    exact absurd hsel (by decide)
  exact absurd (selDesc_invariant (fun x => x = 1) rfl hstep hdesc) (by decide)

/-- One step of the wiring loop, spelled out. -/
theorem addInputs_cons (mi mo : Nat) (t : ClkTree) (i s : ClkId) (rest : List ClkId) :
    addInputs mi mo t i (s :: rest) =
      (if ((update t i { t i with input := (t i).input ++ [some s] }) i).input.length ≤ mi
       then
        (if (((update (update t i { t i with input := (t i).input ++ [some s] }) s
            { (update t i { t i with input := (t i).input ++ [some s] }) s with
              output := ((update t i { t i with input := (t i).input ++ [some s] }) s).output
                ++ [i] })) s).output.length ≤ mo
         then addInputs mi mo
            (update (update t i { t i with input := (t i).input ++ [some s] }) s
              { (update t i { t i with input := (t i).input ++ [some s] }) s with
                output := ((update t i { t i with input := (t i).input ++ [some s] }) s).output
                  ++ [i] }) i rest
         else
          ((update (update t i { t i with input := (t i).input ++ [some s] }) s
            { (update t i { t i with input := (t i).input ++ [some s] }) s with
              output := ((update t i { t i with input := (t i).input ++ [some s] }) s).output
                ++ [i] }), false))
       else (update t i { t i with input := (t i).input ++ [some s] }, false)) := rfl

/-- Full characterization of the wiring loop when every count stays within
capacity: no assert fails, the new node's candidate list gains every input in
order, each (distinct) source's fan-out list gains the new node, and no other
node changes. -/
theorem addInputs_spec : ∀ (l : List ClkId) (mi mo : Nat) (t : ClkTree) (i : Nat),
    (∀ s : Nat, s ∈ l → s ≠ i) → l.Nodup →
    (t i).input.length + l.length ≤ mi →
    (∀ s : Nat, s ∈ l → (t s).output.length + 1 ≤ mo) →
    (addInputs mi mo t i l).2 = true
    ∧ (addInputs mi mo t i l).1 i = { t i with input := (t i).input ++ l.map some }
    ∧ (∀ s : Nat, s ∈ l →
        (addInputs mi mo t i l).1 s = { t s with output := (t s).output ++ [i] })
    ∧ (∀ j : Nat, j ≠ i → j ∉ l → (addInputs mi mo t i l).1 j = t j) := by
  intro l
  induction l with
  | nil =>
    intro mi mo t i hne hnd hmi hmo
    refine ⟨rfl, ?_, ?_, ?_⟩
    · show t i = { t i with input := (t i).input ++ [] }
      rw [List.append_nil]
    · intro s hs; exact absurd hs (List.not_mem_nil s)
    · intro j hj hjl; rfl
  | cons s rest ihl =>
    intro mi mo t i hne hnd hmi hmo
    have hsne : s ≠ i := hne s (List.mem_cons_self s rest)
    have hisne : i ≠ s := fun h => hsne h.symm
    have hsrest : s ∉ rest := (List.nodup_cons.mp hnd).1
    simp only [List.length_cons] at hmi
    have e1i : (update t i { t i with input := (t i).input ++ [some s] }) i =
        { t i with input := (t i).input ++ [some s] } := update_self t i _
    have e1s : (update t i { t i with input := (t i).input ++ [some s] }) s = t s :=
      update_ne t i _ hsne
    have hc1 : ((update t i { t i with input := (t i).input ++ [some s] }) i).input.length
        ≤ mi := by
      rw [e1i]
      show ((t i).input ++ [some s]).length ≤ mi
      rw [List.length_append]
      simp only [List.length_cons, List.length_nil]
      omega
    have hc2 : (((update (update t i { t i with input := (t i).input ++ [some s] }) s
        { (update t i { t i with input := (t i).input ++ [some s] }) s with
          output := ((update t i { t i with input := (t i).input ++ [some s] }) s).output
            ++ [i] })) s).output.length ≤ mo := by
      rw [update_self, e1s]
      show ((t s).output ++ [i]).length ≤ mo
      rw [List.length_append]
      simp only [List.length_cons, List.length_nil]
      exact hmo s (List.mem_cons_self s rest)
    rw [addInputs_cons, if_pos hc1, if_pos hc2]
    have e2i : (update (update t i { t i with input := (t i).input ++ [some s] }) s
        { (update t i { t i with input := (t i).input ++ [some s] }) s with
          output := ((update t i { t i with input := (t i).input ++ [some s] }) s).output
            ++ [i] }) i = { t i with input := (t i).input ++ [some s] } := by
      rw [update_ne _ _ _ hisne, e1i]
    have e2s : (update (update t i { t i with input := (t i).input ++ [some s] }) s
        { (update t i { t i with input := (t i).input ++ [some s] }) s with
          output := ((update t i { t i with input := (t i).input ++ [some s] }) s).output
            ++ [i] }) s = { t s with output := (t s).output ++ [i] } := by
      rw [update_self, e1s]
    have e2o : ∀ j : Nat, j ≠ i → j ≠ s →
        (update (update t i { t i with input := (t i).input ++ [some s] }) s
          { (update t i { t i with input := (t i).input ++ [some s] }) s with
            output := ((update t i { t i with input := (t i).input ++ [some s] }) s).output
              ++ [i] }) j = t j := by
      intro j hji hjs
      rw [update_ne _ _ _ hjs, update_ne _ _ _ hji]
    have spec := ihl mi mo
      (update (update t i { t i with input := (t i).input ++ [some s] }) s
        { (update t i { t i with input := (t i).input ++ [some s] }) s with
          output := ((update t i { t i with input := (t i).input ++ [some s] }) s).output
            ++ [i] }) i
      (fun s2 hs2 => hne s2 (List.mem_cons_of_mem s hs2))
      (List.nodup_cons.mp hnd).2
      (by rw [e2i]
          show ((t i).input ++ [some s]).length + rest.length ≤ mi
          rw [List.length_append]
          simp only [List.length_cons, List.length_nil]
          omega)
      (by intro s2 hs2
          have hs2s : s2 ≠ s := fun h => hsrest (h ▸ hs2)
          rw [e2o s2 (hne s2 (List.mem_cons_of_mem s hs2)) hs2s]
          exact hmo s2 (List.mem_cons_of_mem s hs2))
    obtain ⟨sp1, sp2, sp3, sp4⟩ := spec
    refine ⟨sp1, ?_, ?_, ?_⟩
    · rw [sp2, e2i]
      show { t i with input := ((t i).input ++ [some s]) ++ List.map some rest } =
        { t i with input := (t i).input ++ (some s :: List.map some rest) }
      rw [List.append_assoc]
      rfl
    · intro s2 hs2
      rcases List.mem_cons.mp hs2 with hs2 | hs2
      · subst hs2
        rw [sp4 s2 hsne hsrest, e2s]
      · have hs2s : s2 ≠ s := fun h => hsrest (h ▸ hs2)
        rw [sp3 s2 hs2, e2o s2 (hne s2 (List.mem_cons_of_mem s hs2)) hs2s]
    · intro j hji hjl
      have hjs : j ≠ s := fun h => hjl (h ▸ List.mem_cons_self s rest)
      have hjrest : j ∉ rest := fun h => hjl (List.mem_cons_of_mem s h)
      rw [sp4 j hji hjrest, e2o j hji hjs]

/-- C9: clktree_is_enabled is true exactly when both the node's enable flag
and its construction flag (is_initialized) are set.  The model makes it a pure
function of the node value (type Clk to Bool), mirroring the read-only C body,
so it cannot modify any node state. -/
theorem is_enabled_characterization (c : Clk) :
    clktree_is_enabled c = true ↔ (c.enabled = true ∧ c.is_initialized = true) := by
  simp [clktree_is_enabled]

/-- C10: clktree_set_scale is definitionally the unvalidated field store
followed by recalculation (first conjunct: no guard exists between the store
and the recalc).  On an enabled node, setting divisor 0 makes the
recalculation's muldiv64 call an unguarded division by zero, so the checked
frequency computation is undefined (second conjunct); in general it is defined
exactly when the node is disabled or its divisor is nonzero (third conjunct),
and where defined it agrees with the total model newOutputFreq (fourth). -/
theorem set_scale_divisor_zero_undefined :
    (∀ (fuel : Nat) (t : ClkTree) (i : ClkId) (m d : Nat),
      clktree_set_scale fuel t i m d =
        recalcF fuel (update t i { t i with multiplier := m, divisor := d }) i)
    ∧ (∀ (t : ClkTree) (i : ClkId) (m : Nat), (t i).enabled = true →
      newOutputFreqChecked ((update t i { t i with multiplier := m, divisor := 0 }) i) = none)
    ∧ (∀ c : Clk, (newOutputFreqChecked c).isSome = true ↔
        (c.enabled = false ∨ c.divisor ≠ 0))
    ∧ (∀ (c : Clk) (v : Nat), newOutputFreqChecked c = some v → newOutputFreq c = v) := by
  refine ⟨fun fuel t i m d => rfl, ?_, ?_, ?_⟩
  · intro t i m he
    rw [update_self]
    simp [newOutputFreqChecked, he]
  · intro c
    by_cases hc : c.enabled
    · by_cases hd : c.divisor = 0
      · simp [newOutputFreqChecked, hc, hd]
      · simp [newOutputFreqChecked, hc, hd]
    · simp [newOutputFreqChecked, hc]
  · intro c v h
    by_cases hc : c.enabled
    · by_cases hd : c.divisor = 0
      · simp [newOutputFreqChecked, hc, hd] at h
      · simp only [newOutputFreqChecked, hc, if_pos, if_true, if_neg hd,
          Option.some.injEq] at h
        simp only [newOutputFreq, hc, if_true]
        exact h
    · simp only [newOutputFreqChecked, hc, Bool.false_eq_true, if_false,
        Option.some.injEq] at h
      simp only [newOutputFreq, hc, Bool.false_eq_true, if_false]
      exact h.symm ▸ rfl

/-- Witness for C10 at a concrete heap: the placeholder node 0 is enabled, and
after storing multiplier 2, divisor 0 its recalculation is undefined. -/
theorem set_scale_divisor_zero_undefined_witness :
    newOutputFreqChecked
      ((update baseTree 0 { baseTree 0 with multiplier := 2, divisor := 0 }) 0) = none :=
  set_scale_divisor_zero_undefined.2.1 baseTree 0 2 rfl

/-- C7 fails as stated: input_freq = 2^32 - 1 is a valid uint32 and
multiplier = 2 a valid uint16, the exact quotient 2^33 - 2 is computed by
muldiv64, but the store into the uint32_t new_output_freq truncates it to
2^32 - 2, so the recalculated output is not the exact floor quotient. -/
theorem recalc_truncation_counterexample :
    newOutputFreq { baseClk with input_freq := U32 - 1, multiplier := 2, divisor := 1 }
      = U32 - 2
    ∧ muldiv64 (U32 - 1) 2 1 = 2 * U32 - 2
    ∧ U32 - 2 ≠ 2 * U32 - 2 := by
  refine ⟨?_, ?_, ?_⟩ <;> decide

/-- C7 amended: the multiplication happens before the division in an
intermediate wide enough that input_freq * multiplier cannot overflow (the
product of a uint32 and a uint16 is below 2^48, well inside 64 bits), and the
quotient is the exact floor of product over divisor; the truncation happens
only at the uint32 store of new_output_freq, so the stored output equals the
quotient reduced modulo 2^32, and equals the exact floor whenever that
quotient fits in 32 bits. -/
theorem muldiv_exact_amended :
    (∀ a b : Nat, a < U32 → b < 2 ^ 16 → a * b < 2 ^ 48 ∧ a * b < 2 ^ 64)
    ∧ (∀ a b d : Nat, 0 < d → muldiv64 a b d = a * b / d)
    ∧ (∀ c : Clk, c.enabled = true →
        newOutputFreq c = muldiv64 c.input_freq c.multiplier c.divisor % U32)
    ∧ (∀ c : Clk, c.enabled = true →
        muldiv64 c.input_freq c.multiplier c.divisor < U32 →
        newOutputFreq c = c.input_freq * c.multiplier / c.divisor) := by
  refine ⟨?_, fun a b d hd => rfl, ?_, ?_⟩
  · intro a b ha hb
    have hU : U32 = 2 ^ 32 := rfl
    have h1 : a * b ≤ (2 ^ 32 - 1) * (2 ^ 16 - 1) :=
      Nat.mul_le_mul (by omega) (by omega)
    have h2 : (2 ^ 32 - 1) * (2 ^ 16 - 1) < 2 ^ 48 := by norm_num
    have h3 : (2 : Nat) ^ 48 < 2 ^ 64 := by norm_num
    constructor <;> omega
  · intro c hc
    simp [newOutputFreq, hc]
  · intro c hc hlt
    simp only [newOutputFreq, hc, if_true]
    rw [Nat.mod_eq_of_lt hlt]
    rfl

/-- Witness for the amended C7 at concrete values: 5 * 7 stays inside the wide
intermediate, and an enabled node at 8 MHz with ratio 3/2 stores the exact
floor 12 MHz. -/
theorem muldiv_exact_amended_witness :
    ((5 : Nat) * 7 < 2 ^ 48 ∧ (5 : Nat) * 7 < 2 ^ 64)
    ∧ newOutputFreq
        { baseClk with input_freq := 8000000, multiplier := 3, divisor := 2 }
      = 8000000 * 3 / 2 :=
  ⟨muldiv_exact_amended.1 5 7 (by decide) (by decide),
    muldiv_exact_amended.2.2.2
      { baseClk with input_freq := 8000000, multiplier := 3, divisor := 2 }
      rfl (by decide)⟩

/-- C8: behaviour of the three capacity-checked CLKTREE_ADD_LINK sites.
First conjunct, clktree_adduser: the observer is always appended (the macro
writes before asserting) and the assert fails exactly when the grown count
exceeds the capacity.  Second, the wiring loop of clktree_create_clk: a
candidate-input append that takes the fan-in list past its capacity fails the
assert and stops the loop at once (the fan-out side of that element and all
later elements are not processed).  Third: with the fan-in count in range, a
fan-out append that takes the source's list past its capacity fails the assert
and stops at once.  Fourth: while every count stays within capacity no assert
fails, and every element is appended — the new node's candidate list gains
every input in order and each source's fan-out list gains the new node. -/
theorem capacity_overflow_fatal :
    (∀ (mi : Nat) (t : ClkTree) (i : ClkId) (u : Nat),
      ((clktree_adduser mi t i u).1 i).user = (t i).user ++ [u]
      ∧ ((clktree_adduser mi t i u).2 = false ↔ mi < (t i).user.length + 1))
    ∧ (∀ (mi mo : Nat) (t : ClkTree) (i s : Nat) (rest : List ClkId),
      mi < (t i).input.length + 1 →
      (addInputs mi mo t i (s :: rest)).2 = false
      ∧ ((addInputs mi mo t i (s :: rest)).1 i).input = (t i).input ++ [some s]
      ∧ (∀ j : Nat, j ≠ i → (addInputs mi mo t i (s :: rest)).1 j = t j))
    ∧ (∀ (mi mo : Nat) (t : ClkTree) (i s : Nat) (rest : List ClkId),
      s ≠ i → (t i).input.length + 1 ≤ mi → mo < (t s).output.length + 1 →
      (addInputs mi mo t i (s :: rest)).2 = false
      ∧ ((addInputs mi mo t i (s :: rest)).1 i).input = (t i).input ++ [some s]
      ∧ ((addInputs mi mo t i (s :: rest)).1 s).output = (t s).output ++ [i]
      ∧ (∀ j : Nat, j ≠ i → j ≠ s → (addInputs mi mo t i (s :: rest)).1 j = t j))
    ∧ (∀ (l : List ClkId) (mi mo : Nat) (t : ClkTree) (i : Nat),
      (∀ s : Nat, s ∈ l → s ≠ i) → l.Nodup →
      (t i).input.length + l.length ≤ mi →
      (∀ s : Nat, s ∈ l → (t s).output.length + 1 ≤ mo) →
      (addInputs mi mo t i l).2 = true
      ∧ (addInputs mi mo t i l).1 i = { t i with input := (t i).input ++ l.map some }
      ∧ (∀ s : Nat, s ∈ l →
          (addInputs mi mo t i l).1 s = { t s with output := (t s).output ++ [i] })) := by
  refine ⟨?_, ?_, ?_, ?_⟩
  · intro mi t i u
    constructor
    · show ((update t i { t i with user := (t i).user ++ [u] }) i).user = (t i).user ++ [u]
      rw [update_self]
    · show (decide (((update t i { t i with user := (t i).user ++ [u] }) i).user.length ≤ mi)
          = false) ↔ mi < (t i).user.length + 1
      rw [update_self]
      show (decide (((t i).user ++ [u]).length ≤ mi) = false) ↔ mi < (t i).user.length + 1
      rw [List.length_append]
      simp only [List.length_cons, List.length_nil, decide_eq_false_iff_not, Nat.not_le]
  · intro mi mo t i s rest hover
    have hc1 : ¬ ((update t i { t i with input := (t i).input ++ [some s] }) i).input.length
        ≤ mi := by
      rw [update_self]
      show ¬ ((t i).input ++ [some s]).length ≤ mi
      rw [List.length_append]
      simp only [List.length_cons, List.length_nil]
      omega
    rw [addInputs_cons, if_neg hc1]
    refine ⟨rfl, ?_, ?_⟩
    · show ((update t i { t i with input := (t i).input ++ [some s] }) i).input =
        (t i).input ++ [some s]
      rw [update_self]
    · intro j hj
      exact update_ne t i _ hj
  · intro mi mo t i s rest hsne hfit hover
    have hc1 : ((update t i { t i with input := (t i).input ++ [some s] }) i).input.length
        ≤ mi := by
      rw [update_self]
      show ((t i).input ++ [some s]).length ≤ mi
      rw [List.length_append]
      simp only [List.length_cons, List.length_nil]
      omega
    have e1s : (update t i { t i with input := (t i).input ++ [some s] }) s = t s :=
      update_ne t i _ hsne
    have hc2 : ¬ (((update (update t i { t i with input := (t i).input ++ [some s] }) s
        { (update t i { t i with input := (t i).input ++ [some s] }) s with
          output := ((update t i { t i with input := (t i).input ++ [some s] }) s).output
            ++ [i] })) s).output.length ≤ mo := by
      rw [update_self, e1s]
      show ¬ ((t s).output ++ [i]).length ≤ mo
      rw [List.length_append]
      simp only [List.length_cons, List.length_nil]
      omega
    rw [addInputs_cons, if_pos hc1, if_neg hc2]
    have hisne : i ≠ s := fun h => hsne h.symm
    refine ⟨rfl, ?_, ?_, ?_⟩
    · show ((update (update t i { t i with input := (t i).input ++ [some s] }) s
        { (update t i { t i with input := (t i).input ++ [some s] }) s with
          output := ((update t i { t i with input := (t i).input ++ [some s] }) s).output
            ++ [i] }) i).input = (t i).input ++ [some s]
      rw [update_ne _ _ _ hisne, update_self]
    · show ((update (update t i { t i with input := (t i).input ++ [some s] }) s
        { (update t i { t i with input := (t i).input ++ [some s] }) s with
          output := ((update t i { t i with input := (t i).input ++ [some s] }) s).output
            ++ [i] }) s).output = (t s).output ++ [i]
      rw [update_self, e1s]
    · intro j hji hjs
      exact (update_ne _ _ _ hjs).trans (update_ne t i _ hji)
  · intro l mi mo t i hne hnd hmi hmo
    obtain ⟨sp1, sp2, sp3, sp4⟩ := addInputs_spec l mi mo t i hne hnd hmi hmo
    exact ⟨sp1, sp2, sp3⟩

/-- Witness for C8 on a concrete heap: an adduser within capacity appends and
passes the assert; one past capacity appends and fails it; a two-element
within-capacity wiring succeeds with both asserts passing. -/
theorem capacity_overflow_fatal_witness :
    ((clktree_adduser 4 baseTree 0 11).1 0).user = [11]
    ∧ ((clktree_adduser 0 baseTree 0 11).2 = false)
    ∧ (addInputs 8 8 mux2Tree 2 [0, 1]).2 = true := by
  refine ⟨?_, ?_, ?_⟩
  · exact (capacity_overflow_fatal.1 4 baseTree 0 11).1
  · exact (capacity_overflow_fatal.1 0 baseTree 0 11).2.mpr (by decide)
  · exact (capacity_overflow_fatal.2.2.2 [0, 1] 8 8 mux2Tree 2 (by decide) (by decide)
      (by decide) (by decide)).1

/-- The assert-passing branch of clktree_set_selected_input, spelled out. -/
theorem set_selected_input_pos (fuel : Nat) (t : ClkTree) (i : ClkId) (sel : Int)
    (h : sel + 1 < ((t i).input.length : Int)) :
    clktree_set_selected_input fuel t i sel =
      ((clktree_set_input_freq fuel (update t i { t i with selected_input := sel }) i
        (if -1 < sel then
          (match getInputClk ((update t i { t i with selected_input := sel }) i) with
            | some s => ((update t i { t i with selected_input := sel }) s).output_freq
            | none => 0)
         else 0)).1,
       (clktree_set_input_freq fuel (update t i { t i with selected_input := sel }) i
        (if -1 < sel then
          (match getInputClk ((update t i { t i with selected_input := sel }) i) with
            | some s => ((update t i { t i with selected_input := sel }) s).output_freq
            | none => 0)
         else 0)).2, true) := by
  simp only [clktree_set_selected_input, if_pos h]

/-- The assert-failing branch of clktree_set_selected_input: the C program
aborts before storing anything. -/
theorem set_selected_input_neg (fuel : Nat) (t : ClkTree) (i : ClkId) (sel : Int)
    (h : ¬ sel + 1 < ((t i).input.length : Int)) :
    clktree_set_selected_input fuel t i sel = (t, [], false) := by
  simp only [clktree_set_selected_input, if_neg h]

/-- C3: a mutation whose recomputed output frequency equals the stored
output_freq is silent.  For each of set_scale, set_enabled, set_input_freq and
(in its assert-passing branch) select_input: when the output recomputed from
the freshly stored scalar fields equals the current output_freq, the operation
returns with exactly the scalar store performed — no other node is touched (no
propagation into the fan-out), the event trace is empty (no observer pulse, no
diagnostic), and output_freq is unchanged. -/
theorem idempotent_mutation_silent :
    (∀ (fuel : Nat) (t : ClkTree) (i : ClkId) (m d : Nat),
      newOutputFreq { t i with multiplier := m, divisor := d } = (t i).output_freq →
      clktree_set_scale fuel t i m d =
        (update t i { t i with multiplier := m, divisor := d }, []))
    ∧ (∀ (fuel : Nat) (t : ClkTree) (i : ClkId) (en : Bool),
      newOutputFreq { t i with enabled := en } = (t i).output_freq →
      clktree_set_enabled fuel t i en = (update t i { t i with enabled := en }, []))
    ∧ (∀ (fuel : Nat) (t : ClkTree) (i : ClkId) (f : Nat),
      newOutputFreq { t i with input_freq := f } = (t i).output_freq →
      clktree_set_input_freq fuel t i f = (update t i { t i with input_freq := f }, []))
    ∧ (∀ (fuel : Nat) (t : ClkTree) (i : ClkId) (sel : Int) (f : Nat),
      sel + 1 < ((t i).input.length : Int) →
      f = (if -1 < sel then
            (match getInputClk { t i with selected_input := sel } with
              | some s => ((update t i { t i with selected_input := sel }) s).output_freq
              | none => 0)
           else 0) →
      newOutputFreq { t i with selected_input := sel, input_freq := f }
        = (t i).output_freq →
      clktree_set_selected_input fuel t i sel =
        (update t i { t i with selected_input := sel, input_freq := f }, [], true)) := by
  refine ⟨?_, ?_, ?_, ?_⟩
  · intro fuel t i m d hnc
    refine recalcF_stop fuel _ i ?_
    rw [update_self]
    exact hnc
  · intro fuel t i en hnc
    refine recalcF_stop fuel _ i ?_
    rw [update_self]
    exact hnc
  · intro fuel t i f hnc
    refine recalcF_stop fuel _ i ?_
    rw [update_self]
    exact hnc
  · intro fuel t i sel f hin hf hnc
    rw [set_selected_input_pos fuel t i sel hin]
    rw [update_self]
    rw [← hf]
    have htree : update (update t i { t i with selected_input := sel }) i
        { { t i with selected_input := sel } with input_freq := f } =
        update t i { t i with selected_input := sel, input_freq := f } := by
      funext j
      by_cases hj : j = i
      · subst hj
        rw [update_self, update_self]
      · rw [update_ne _ _ _ hj, update_ne _ _ _ hj, update_ne _ _ _ hj]
    have hstop : newOutputFreq ((update (update t i { t i with selected_input := sel }) i
        { { t i with selected_input := sel } with input_freq := f }) i) =
        ((update (update t i { t i with selected_input := sel }) i
          { { t i with selected_input := sel } with input_freq := f }) i).output_freq := by
      rw [update_self]
      exact hnc
    show ((clktree_set_input_freq fuel (update t i { t i with selected_input := sel }) i f).1,
        (clktree_set_input_freq fuel (update t i { t i with selected_input := sel }) i f).2,
        true) = _
    rw [show clktree_set_input_freq fuel (update t i { t i with selected_input := sel }) i f
        = (update t i { t i with selected_input := sel, input_freq := f }, []) from by
      rw [clktree_set_input_freq, update_self, recalcF_stop fuel _ i hstop, htree]]

/-- C6 fails as stated: selecting index -2 — below the "none" sentinel -1 and
not a valid position — on a node with a one-candidate input list passes the
assert, because the signed comparison (-2) + 1 < 2 holds.  No fatal error is
raised; the selection is stored and input_freq becomes 0 exactly as in the
"none" case.  The claim demands the fatal branch for every index below the
sentinel. -/
theorem select_below_sentinel_not_fatal :
    (clktree_set_selected_input 2 pairTree 1 (-2)).2.2 = true
    ∧ ((clktree_set_selected_input 2 pairTree 1 (-2)).1 1).selected_input = -2
    ∧ ((clktree_set_selected_input 2 pairTree 1 (-2)).1 1).input_freq = 0 := by
  refine ⟨?_, ?_, ?_⟩ <;> decide

/-- C6 amended: the assert of clktree_set_selected_input is only an upper-bound
check.  The operation is fatal exactly when index + 1 reaches or passes the
candidate-list length (first conjunct; in particular the fatal branch is
unreachable for every in-range index and for the sentinel -1, and is reached
for every index at or past the list length).  When the assert passes, the
selection is stored (second conjunct), and every index at or below the
sentinel — including indices below -1, which the claim expected to be fatal —
is treated like "none": input_freq becomes 0 (third conjunct, stated on
leaf-first wired heaps with enough fuel). -/
theorem select_input_fatal_condition :
    (∀ (fuel : Nat) (t : ClkTree) (i : ClkId) (sel : Int),
      ((clktree_set_selected_input fuel t i sel).2.2 = false ↔
        ((t i).input.length : Int) ≤ sel + 1))
    ∧ (∀ (fuel : Nat) (t : ClkTree) (i : ClkId) (sel : Int),
      sel + 1 < ((t i).input.length : Int) →
      ((clktree_set_selected_input fuel t i sel).1 i).selected_input = sel)
    ∧ (∀ (fuel N : Nat) (t : ClkTree) (i : Nat) (sel : Int),
      Wired t N → i < N → N ≤ fuel + i →
      sel ≤ -1 → sel + 1 < ((t i).input.length : Int) →
      ((clktree_set_selected_input fuel t i sel).1 i).input_freq = 0) := by
  refine ⟨?_, ?_, ?_⟩
  · intro fuel t i sel
    by_cases h : sel + 1 < ((t i).input.length : Int)
    · rw [set_selected_input_pos fuel t i sel h]
      constructor
      · intro hfalse
        exact absurd hfalse (by simp)
      · intro hle
        omega
    · rw [set_selected_input_neg fuel t i sel h]
      constructor
      · intro hfalse
        omega
      · intro hle
        rfl
  · intro fuel t i sel h
    rw [set_selected_input_pos fuel t i sel h]
    simp only [clktree_set_input_freq]
    exact ((recalcF_shape fuel _ i) i).sel.trans (by rw [update_self, update_self])
  · intro fuel N t i sel hw hi hN hbelow hrange
    rw [set_selected_input_pos fuel t i sel hrange]
    rw [if_neg (show ¬ (-1 : Int) < sel by omega)]
    simp only [clktree_set_input_freq]
    have hw2 : Wired (update (update t i { t i with selected_input := sel }) i
        { (update t i { t i with selected_input := sel }) i with input_freq := 0 }) N :=
      wired_update (wired_update hw rfl) rfl
    have spec := recalcF_spec fuel N _ i hw2 hi hN
    rw [spec.1, update_self]

/-- Witness for the amended C6 on pairTree: an index past the list length is
fatal; the sentinel passes, stores the selection, and zeroes input_freq. -/
theorem select_input_fatal_condition_witness :
    (clktree_set_selected_input 2 pairTree 1 5).2.2 = false
    ∧ ((clktree_set_selected_input 2 pairTree 1 (-1)).1 1).selected_input = -1
    ∧ ((clktree_set_selected_input 2 pairTree 1 (-1)).1 1).input_freq = 0 := by
  refine ⟨?_, ?_, ?_⟩
  · exact (select_input_fatal_condition.1 2 pairTree 1 5).mpr (by decide)
  · exact select_input_fatal_condition.2.1 2 pairTree 1 (-1) (by decide)
  · exact select_input_fatal_condition.2.2 2 2 pairTree 1 (-1) wired_pairTree
      (by decide) (by decide) (by decide) (by decide)


/-- A recalculation at a node with no fan-out edges establishes the invariant
there and touches no other node. -/
theorem recalc_no_fanout (fuel N : Nat) (T : ClkTree) (i : Nat)
    (hw : Wired T N) (hi : i < N) (hN : N ≤ fuel + i) (hout : (T i).output = []) :
    localInv ((recalcF fuel T i).1 i)
    ∧ (∀ j : Nat, j ≠ i → (recalcF fuel T i).1 j = T j) := by
  obtain ⟨s1, s2, s3, s4, s5⟩ := recalcF_spec fuel N T i hw hi hN
  constructor
  · rw [s1]
    exact localInv_set_output _
  · intro j hj
    by_cases hrj : (recalcF fuel T i).1 j = T j
    · exact hrj
    · exact absurd (selDesc_only_self hout (s4 j hrj)) hj

/-- C1: after each mutation or creation operation returns, the spec equation
output_freq = enabled ? input_freq * multiplier / divisor : 0 (localInv, in the
code's own uint32 arithmetic) holds for the mutated node, and every other node
was either left untouched by the propagation pass or satisfies the equation
too.  Stated on leaf-first wired heaps with enough fuel for the recursion to
complete — the C code's own termination assumption.  The freshly created node
of the two creation operations has no fan-out, so its first recalculation
reaches no other node: create_src_clk leaves every other node untouched, and
create_clk completes with no assert firing, establishes the equation on the
new node, and elsewhere only grows fan-out lists (frequencies are untouched
and the equation is preserved where it held). -/
theorem clktree_invariant_after_mutations :
    (∀ (fuel N : Nat) (t : ClkTree) (i m d : Nat),
      Wired t N → i < N → N ≤ fuel + i →
      localInv ((clktree_set_scale fuel t i m d).1 i)
      ∧ (∀ j : Nat, j ≠ i → (clktree_set_scale fuel t i m d).1 j = t j
          ∨ localInv ((clktree_set_scale fuel t i m d).1 j)))
    ∧ (∀ (fuel N : Nat) (t : ClkTree) (i : Nat) (en : Bool),
      Wired t N → i < N → N ≤ fuel + i →
      localInv ((clktree_set_enabled fuel t i en).1 i)
      ∧ (∀ j : Nat, j ≠ i → (clktree_set_enabled fuel t i en).1 j = t j
          ∨ localInv ((clktree_set_enabled fuel t i en).1 j)))
    ∧ (∀ (fuel N : Nat) (t : ClkTree) (i : Nat) (sel : Int),
      Wired t N → i < N → N ≤ fuel + i →
      sel + 1 < ((t i).input.length : Int) →
      localInv ((clktree_set_selected_input fuel t i sel).1 i)
      ∧ (∀ j : Nat, j ≠ i → (clktree_set_selected_input fuel t i sel).1 j = t j
          ∨ localInv ((clktree_set_selected_input fuel t i sel).1 j)))
    ∧ (∀ (fuel N : Nat) (t : ClkTree) (i : Nat) (nm : String) (srcFreq : Nat) (en : Bool),
      (∀ (k j : Nat), k ≠ i → j ∈ (t k).output → k < j ∧ j < N) → i < N → N ≤ fuel + i →
      localInv ((clktree_create_src_clk fuel t i nm srcFreq en).1 i)
      ∧ (∀ j : Nat, j ≠ i → (clktree_create_src_clk fuel t i nm srcFreq en).1 j = t j))
    ∧ (∀ (fuel N maxInput maxOutput : Nat) (t : ClkTree) (i : Nat) (nm : String)
        (m d : Nat) (en : Bool) (maxFreq : Nat) (sel : Int) (inputs : List ClkId),
      (∀ (k j : Nat), k ≠ i → j ∈ (t k).output → k < j ∧ j < N) → i < N → N ≤ fuel + i →
      (∀ s : Nat, s ∈ inputs → s < i) → inputs.Nodup →
      1 + inputs.length ≤ maxInput →
      (∀ s : Nat, s ∈ inputs → (t s).output.length + 1 ≤ maxOutput) →
      sel + 1 < (1 + (inputs.length : Int)) →
      (clktree_create_clk fuel maxInput maxOutput t i nm m d en maxFreq sel inputs).2.2 = true
      ∧ localInv
        ((clktree_create_clk fuel maxInput maxOutput t i nm m d en maxFreq sel inputs).1 i)
      ∧ (∀ j : Nat, j ≠ i →
        ((clktree_create_clk fuel maxInput maxOutput t i nm m d en maxFreq sel inputs).1 j).output_freq
          = (t j).output_freq
        ∧ ((clktree_create_clk fuel maxInput maxOutput t i nm m d en maxFreq sel inputs).1 j).input_freq
          = (t j).input_freq
        ∧ (localInv (t j) →
          localInv ((clktree_create_clk fuel maxInput maxOutput t i nm m d en maxFreq sel inputs).1 j)))) := by
  refine ⟨?_, ?_, ?_, ?_, ?_⟩
  · intro fuel N t i m d hw hi hN
    have hw2 : Wired (update t i { t i with multiplier := m, divisor := d }) N :=
      wired_update hw rfl
    obtain ⟨s1, s2, s3, s4, s5⟩ := recalcF_spec fuel N _ i hw2 hi hN
    constructor
    · simp only [clktree_set_scale]
      rw [s1]
      exact localInv_set_output _
    · intro j hj
      simp only [clktree_set_scale]
      rcases s3 j with h3 | h3
      · left
        rw [h3, update_ne _ _ _ hj]
      · right
        exact h3
  · intro fuel N t i en hw hi hN
    have hw2 : Wired (update t i { t i with enabled := en }) N := wired_update hw rfl
    obtain ⟨s1, s2, s3, s4, s5⟩ := recalcF_spec fuel N _ i hw2 hi hN
    constructor
    · simp only [clktree_set_enabled]
      rw [s1]
      exact localInv_set_output _
    · intro j hj
      simp only [clktree_set_enabled]
      rcases s3 j with h3 | h3
      · left
        rw [h3, update_ne _ _ _ hj]
      · right
        exact h3
  · intro fuel N t i sel hw hi hN hrange
    have hw2 : Wired (update (update t i { t i with selected_input := sel }) i
        { (update t i { t i with selected_input := sel }) i with input_freq :=
          (if -1 < sel then
            (match getInputClk ((update t i { t i with selected_input := sel }) i) with
              | some s => ((update t i { t i with selected_input := sel }) s).output_freq
              | none => 0)
           else 0) }) N :=
      wired_update (wired_update hw rfl) rfl
    obtain ⟨s1, s2, s3, s4, s5⟩ := recalcF_spec fuel N _ i hw2 hi hN
    constructor
    · rw [set_selected_input_pos fuel t i sel hrange]
      simp only [clktree_set_input_freq]
      rw [s1]
      exact localInv_set_output _
    · intro j hj
      rw [set_selected_input_pos fuel t i sel hrange]
      simp only [clktree_set_input_freq]
      rcases s3 j with h3 | h3
      · left
        rw [h3, update_ne _ _ _ hj, update_ne _ _ _ hj]
      · right
        exact h3
  · intro fuel N t i nm srcFreq en hwX hi hN
    have hGi : clktree_create_generic t i nm 1 1 en i =
        { name := nm, input_freq := 0, output_freq := 0,
          max_output_freq := CLKTREE_NO_MAX_FREQ,
          multiplier := 1, divisor := 1, enabled := en,
          user := [], output := [], input := [none],
          selected_input := CLKTREE_NO_INPUT, is_initialized := true } := by
      simp only [clktree_create_generic]
      exact update_self t i _
    have hGne : ∀ j : Nat, j ≠ i → clktree_create_generic t i nm 1 1 en j = t j := by
      intro j hj
      simp only [clktree_create_generic]
      exact update_ne t i _ hj
    have hw2 : Wired (update (clktree_create_generic t i nm 1 1 en) i
        { clktree_create_generic t i nm 1 1 en i with input_freq := srcFreq }) N := by
      intro k j hj
      by_cases hk : k = i
      · subst hk
        rw [update_self] at hj
        have hj2 : j ∈ (clktree_create_generic t k nm 1 1 en k).output := hj
        rw [hGi] at hj2
        exact absurd hj2 (List.not_mem_nil j)
      · rw [update_ne _ _ _ hk, hGne k hk] at hj
        exact hwX k j hk hj
    have houtT : ((update (clktree_create_generic t i nm 1 1 en) i
        { clktree_create_generic t i nm 1 1 en i with input_freq := srcFreq }) i).output
        = [] := by
      rw [update_self]
      show (clktree_create_generic t i nm 1 1 en i).output = []
      rw [hGi]
    obtain ⟨hA1, hA2⟩ := recalc_no_fanout fuel N
      (update (clktree_create_generic t i nm 1 1 en) i
        { clktree_create_generic t i nm 1 1 en i with input_freq := srcFreq }) i
      hw2 hi hN houtT
    constructor
    · exact hA1
    · intro j hj
      have hv := hA2 j hj
      rw [update_ne _ _ _ hj, hGne j hj] at hv
      exact hv
  · intro fuel N maxInput maxOutput t i nm m d en maxFreq sel inputs hwX hi hN hins hnd
      hmi hmo hrange
    have hGi : clktree_create_generic t i nm m d en i =
        { name := nm, input_freq := 0, output_freq := 0,
          max_output_freq := CLKTREE_NO_MAX_FREQ,
          multiplier := m, divisor := d, enabled := en,
          user := [], output := [], input := [none],
          selected_input := CLKTREE_NO_INPUT, is_initialized := true } := by
      simp only [clktree_create_generic]
      exact update_self t i _
    have hGne : ∀ j : Nat, j ≠ i → clktree_create_generic t i nm m d en j = t j := by
      intro j hj
      simp only [clktree_create_generic]
      exact update_ne t i _ hj
    obtain ⟨w1, w2, w3, w4⟩ := addInputs_spec inputs maxInput maxOutput
      (clktree_create_generic t i nm m d en) i
      (fun s hs => Nat.ne_of_lt (hins s hs))
      hnd
      (by rw [hGi]
          show 1 + inputs.length ≤ maxInput
          exact hmi)
      (by intro s hs
          rw [hGne s (Nat.ne_of_lt (hins s hs))]
          exact hmo s hs)
    have hrange2 : sel + 1 < ((((addInputs maxInput maxOutput
        (clktree_create_generic t i nm m d en) i inputs).1 i).input.length : Int)) := by
      rw [w2]
      show sel + 1 <
        (((clktree_create_generic t i nm m d en i).input ++ inputs.map some).length : Int)
      rw [hGi]
      show sel + 1 < ((([none] : List (Option ClkId)) ++ inputs.map some).length : Int)
      rw [List.length_append, List.length_map]
      simp only [List.length_singleton]
      push_cast
      omega
    have hwW1 : Wired ((addInputs maxInput maxOutput
        (clktree_create_generic t i nm m d en) i inputs).1) N := by
      intro k j hj
      by_cases hk : k = i
      · subst hk
        rw [w2] at hj
        have hj2 : j ∈ (clktree_create_generic t k nm m d en k).output := hj
        rw [hGi] at hj2
        exact absurd hj2 (List.not_mem_nil j)
      · by_cases hkin : k ∈ inputs
        · rw [w3 k hkin] at hj
          have hj2 : j ∈ (clktree_create_generic t i nm m d en k).output ++ [i] := hj
          rw [hGne k hk] at hj2
          rcases List.mem_append.mp hj2 with hja | hja
          · exact hwX k j hk hja
          · have hji : j = i := List.mem_singleton.mp hja
            subst hji
            exact ⟨hins k hkin, hi⟩
        · rw [w4 k hk hkin, hGne k hk] at hj
          exact hwX k j hk hj
    have hwT : Wired (update (update ((addInputs maxInput maxOutput
        (clktree_create_generic t i nm m d en) i inputs).1) i
        { (addInputs maxInput maxOutput
            (clktree_create_generic t i nm m d en) i inputs).1 i with
          selected_input := sel }) i
        { (update ((addInputs maxInput maxOutput
            (clktree_create_generic t i nm m d en) i inputs).1) i
            { (addInputs maxInput maxOutput
                (clktree_create_generic t i nm m d en) i inputs).1 i with
              selected_input := sel }) i with input_freq :=
          (if -1 < sel then
            (match getInputClk ((update ((addInputs maxInput maxOutput
                (clktree_create_generic t i nm m d en) i inputs).1) i
                { (addInputs maxInput maxOutput
                    (clktree_create_generic t i nm m d en) i inputs).1 i with
                  selected_input := sel }) i) with
              | some s => ((update ((addInputs maxInput maxOutput
                  (clktree_create_generic t i nm m d en) i inputs).1) i
                  { (addInputs maxInput maxOutput
                      (clktree_create_generic t i nm m d en) i inputs).1 i with
                    selected_input := sel }) s).output_freq
              | none => 0)
           else 0) }) N :=
      wired_update (wired_update hwW1 rfl) rfl
    have houtT : ((update (update ((addInputs maxInput maxOutput
        (clktree_create_generic t i nm m d en) i inputs).1) i
        { (addInputs maxInput maxOutput
            (clktree_create_generic t i nm m d en) i inputs).1 i with
          selected_input := sel }) i
        { (update ((addInputs maxInput maxOutput
            (clktree_create_generic t i nm m d en) i inputs).1) i
            { (addInputs maxInput maxOutput
                (clktree_create_generic t i nm m d en) i inputs).1 i with
              selected_input := sel }) i with input_freq :=
          (if -1 < sel then
            (match getInputClk ((update ((addInputs maxInput maxOutput
                (clktree_create_generic t i nm m d en) i inputs).1) i
                { (addInputs maxInput maxOutput
                    (clktree_create_generic t i nm m d en) i inputs).1 i with
                  selected_input := sel }) i) with
              | some s => ((update ((addInputs maxInput maxOutput
                  (clktree_create_generic t i nm m d en) i inputs).1) i
                  { (addInputs maxInput maxOutput
                      (clktree_create_generic t i nm m d en) i inputs).1 i with
                    selected_input := sel }) s).output_freq
              | none => 0)
           else 0) }) i).output = [] := by
      rw [update_self]
      show ((update ((addInputs maxInput maxOutput
          (clktree_create_generic t i nm m d en) i inputs).1) i
          { (addInputs maxInput maxOutput
              (clktree_create_generic t i nm m d en) i inputs).1 i with
            selected_input := sel }) i).output = []
      rw [update_self]
      show (((addInputs maxInput maxOutput
          (clktree_create_generic t i nm m d en) i inputs).1) i).output = []
      rw [w2]
      show (clktree_create_generic t i nm m d en i).output = []
      rw [hGi]
    obtain ⟨hA1, hA2⟩ := recalc_no_fanout fuel N
      (update (update ((addInputs maxInput maxOutput
        (clktree_create_generic t i nm m d en) i inputs).1) i
        { (addInputs maxInput maxOutput
            (clktree_create_generic t i nm m d en) i inputs).1 i with
          selected_input := sel }) i
        { (update ((addInputs maxInput maxOutput
            (clktree_create_generic t i nm m d en) i inputs).1) i
            { (addInputs maxInput maxOutput
                (clktree_create_generic t i nm m d en) i inputs).1 i with
              selected_input := sel }) i with input_freq :=
          (if -1 < sel then
            (match getInputClk ((update ((addInputs maxInput maxOutput
                (clktree_create_generic t i nm m d en) i inputs).1) i
                { (addInputs maxInput maxOutput
                    (clktree_create_generic t i nm m d en) i inputs).1 i with
                  selected_input := sel }) i) with
              | some s => ((update ((addInputs maxInput maxOutput
                  (clktree_create_generic t i nm m d en) i inputs).1) i
                  { (addInputs maxInput maxOutput
                      (clktree_create_generic t i nm m d en) i inputs).1 i with
                    selected_input := sel }) s).output_freq
              | none => 0)
           else 0) }) i
      hwT hi hN houtT
    have hcc : clktree_create_clk fuel maxInput maxOutput t i nm m d en maxFreq sel inputs =
        clktree_set_selected_input fuel ((addInputs maxInput maxOutput
          (clktree_create_generic t i nm m d en) i inputs).1) i sel := by
      simp only [clktree_create_clk, w1, if_true]
    refine ⟨?_, ?_, ?_⟩
    · rw [hcc, set_selected_input_pos fuel _ i sel hrange2]
    · rw [hcc, set_selected_input_pos fuel _ i sel hrange2]
      simp only [clktree_set_input_freq]
      exact hA1
    · intro j hj
      rw [hcc, set_selected_input_pos fuel _ i sel hrange2]
      simp only [clktree_set_input_freq]
      have hv := hA2 j hj
      rw [update_ne _ _ _ hj, update_ne _ _ _ hj] at hv
      by_cases hjin : j ∈ inputs
      · rw [w3 j hjin, hGne j hj] at hv
        rw [hv]
        refine ⟨rfl, rfl, ?_⟩
        intro hlj
        exact localInv_set_outlist (t j) _ hlj
      · rw [w4 j hj hjin, hGne j hj] at hv
        rw [hv]
        exact ⟨rfl, rfl, fun hlj => hlj⟩

/-- Witness for C1 on concrete heaps: after a set_scale on node 0 of the
placeholder heap the invariant holds there, and a create_src_clk leaves an
unrelated node untouched. -/
theorem clktree_invariant_after_mutations_witness :
    localInv ((clktree_set_scale 1 baseTree 0 2 1).1 0)
    ∧ (clktree_create_src_clk 1 baseTree 0 "HSE" 8000000 true).1 5 = baseTree 5 := by
  constructor
  · exact (clktree_invariant_after_mutations.1 1 1 baseTree 0 2 1 (wired_baseTree 1)
      (by decide) (by decide)).1
  · exact (clktree_invariant_after_mutations.2.2.2.1 1 1 baseTree 0 "HSE" 8000000 true
      (fun k j hk hj => absurd hj (List.not_mem_nil j))
      (by decide) (by decide)).2 5 (by decide)

/-- Witness for C3: re-storing the scale 1/1 on the placeholder node, whose
output is already consistent, is a pure field store with an empty trace. -/
theorem idempotent_mutation_silent_witness :
    clktree_set_scale 5 baseTree 0 1 1 =
      (update baseTree 0 { baseTree 0 with multiplier := 1, divisor := 1 }, []) :=
  idempotent_mutation_silent.1 5 baseTree 0 1 1 (by decide)

/-- C4 fails as stated: in muxTree, node 0 is a candidate input of node 2 and
is not node 2's currently selected input (node 2 selects node 1) — yet scaling
node 0 changes node 2's output frequency and fires node 2's observer, because
node 2's selected input node 1 itself selects node 0, so the change arrives
through the selected chain. -/
theorem mux_unselected_counterexample :
    some 0 ∈ (muxTree 2).input
    ∧ getInputClk (muxTree 2) ≠ some 0
    ∧ ((clktree_set_scale 3 muxTree 0 2 1).1 2).output_freq ≠ (muxTree 2).output_freq
    ∧ Event.notify 2 7 ∈ (clktree_set_scale 3 muxTree 0 2 1).2 := by
  refine ⟨?_, ?_, ?_, ?_⟩ <;> decide

/-- C4 amended: a node c with an unselected candidate input p is unaffected by
a change to p provided the change cannot also reach c through the chain of
currently selected inputs (c is not a selected descendant of p, which is
exactly what the fan-out skip enforces transitively: during propagation a
fan-out child whose currently selected input is not the propagating node is
skipped).  Then scaling p leaves c entirely unchanged — in particular its
input_freq and output_freq — and fires none of c's observers. -/
theorem mux_unselected_candidate_skipped :
    ∀ (fuel N : Nat) (t : ClkTree) (p c m d : Nat),
      Wired t N → p < N → N ≤ fuel + p →
      some p ∈ (t c).input →
      getInputClk (t c) ≠ some p →
      ¬ SelDesc t p c →
      (clktree_set_scale fuel t p m d).1 c = t c
      ∧ ((clktree_set_scale fuel t p m d).1 c).input_freq = (t c).input_freq
      ∧ ((clktree_set_scale fuel t p m d).1 c).output_freq = (t c).output_freq
      ∧ (∀ e ∈ (clktree_set_scale fuel t p m d).2, e.clkOf ≠ c) := by
  intro fuel N t p c m d hw hp hN hcand hnsel hnd
  have hwir : SameWiring t (update t p { t p with multiplier := m, divisor := d }) :=
    sameWiring_update rfl rfl rfl
  have hw2 : Wired (update t p { t p with multiplier := m, divisor := d }) N :=
    wired_update hw rfl
  obtain ⟨s1, s2, s3, s4, s5⟩ := recalcF_spec fuel N _ p hw2 hp hN
  have hcp : c ≠ p := fun h => hnd (h ▸ SelDesc.base)
  have hmain : (recalcF fuel (update t p { t p with multiplier := m, divisor := d }) p).1 c
      = t c := by
    by_cases hrc : (recalcF fuel (update t p { t p with multiplier := m, divisor := d }) p).1 c
        = (update t p { t p with multiplier := m, divisor := d }) c
    · rw [hrc, update_ne _ _ _ hcp]
    · exact absurd (selDesc_wiring hwir (s4 c hrc)) hnd
  refine ⟨?_, ?_, ?_, ?_⟩
  · simp only [clktree_set_scale]
    exact hmain
  · simp only [clktree_set_scale]
    rw [hmain]
  · simp only [clktree_set_scale]
    rw [hmain]
  · intro e he
    simp only [clktree_set_scale] at he
    have hdesc := s5 e he
    intro hec
    exact hnd (selDesc_wiring hwir (hec ▸ hdesc))

/-- Witness for the amended C4 on mux2Tree: node 1 is an unselected candidate
of mux node 2 (which selects node 0) and no selected chain links them, so
scaling node 1 leaves node 2 unchanged and silent. -/
theorem mux_unselected_candidate_skipped_witness :
    (clktree_set_scale 3 mux2Tree 1 2 1).1 2 = mux2Tree 2
    ∧ (∀ e ∈ (clktree_set_scale 3 mux2Tree 1 2 1).2, e.clkOf ≠ 2) := by
  have h := mux_unselected_candidate_skipped 3 3 mux2Tree 1 2 2 1 wired_mux2Tree
    (by decide) (by decide) (by decide) (by decide) selDesc_mux2_not_two
  exact ⟨h.1, h.2.2.2⟩

/-- The C5 scenario, step 1: an 8 MHz source at node 0. -/
def c5src : ClkTree × List Event := clktree_create_src_clk 2 baseTree 0 "HSE" 8000000 true

/-- The C5 scenario, step 2: a derived node 1 fed by node 0, ratio 3/2 and a
requested ceiling of 10 MHz, whose computed output is 12 MHz. -/
def c5dev : ClkTree × List Event × Bool :=
  clktree_create_clk 2 8 8 c5src.1 1 "PLL" 3 2 true 10000000 0 [0]

/-- C5: clktree_create_clk accepts a max_output_freq argument of 10 MHz but
its body never stores it — clktree_create_generic has already set the field to
CLKTREE_NO_MAX_FREQ and no statement of clktree_create_clk touches it again.
So when the new node computes 12 MHz (above the requested ceiling), no
advisory is emitted and the value is stored: the construction succeeds, the
node reads 12 MHz with max_output_freq = CLKTREE_NO_MAX_FREQ ≠ 10 MHz, and
the whole trace of the creation is empty.  The recalculation engine itself
does emit the advisory when the field actually holds 10 MHz (last conjunct),
so the defect is the dropped argument in clktree_create_clk, contradicting
both its own parameter list and the spec. -/
theorem create_clk_ignores_max_output_freq :
    c5dev.2.2 = true
    ∧ (c5dev.1 1).output_freq = 12000000
    ∧ 10000000 < (c5dev.1 1).output_freq
    ∧ (c5dev.1 1).max_output_freq = CLKTREE_NO_MAX_FREQ
    ∧ (c5dev.1 1).max_output_freq ≠ 10000000
    ∧ c5dev.2.1 = []
    ∧ (recalcF 1 (update baseTree 0
        { baseClk with
          input_freq := 8000000, multiplier := 3, divisor := 2,
          max_output_freq := 10000000 }) 0).2
      = [Event.overMax 0 12000000 10000000] := by
  refine ⟨?_, ?_, ?_, ?_, ?_, ?_, ?_⟩ <;> decide

/-- propagateChildren on a one-element child list that selects the propagating
node reduces to a single visit. -/
theorem propagateChildren_single_sel (visit : ClkTree → ClkId → Nat → ClkTree × List Event)
    (p : ClkId) (f : Nat) (t : ClkTree) (ch : ClkId)
    (h : getInputClk (t ch) = some p) :
    propagateChildren visit p f t [ch] = visit t ch f := by
  rw [propagateChildren_cons_sel _ _ _ _ _ _ h, propagateChildren_nil, List.append_nil]

/-- The three-node chain lemma behind C2: in a heap where node a feeds only b
(which selects a) and b feeds only c2 (which selects b, is consistent, and has
no fan-out), a recalculation at a whose recomputed output differs from the
stored one updates b and c2 through the selected chain: b's input becomes a's
new output, b's output becomes its gate and ratio applied to it, and likewise
one step further for c2 (via c2's prior consistency when b's output does not
change).  Fuel 3 levels beyond f suffices for the three recursion levels. -/
theorem chain_recalc (f : Nat) (T : ClkTree) (a b c2 : Nat)
    (hab : a ≠ b) (hbc : b ≠ c2) (hac : a ≠ c2)
    (houtA : (T a).output = [b]) (houtB : (T b).output = [c2])
    (houtC : (T c2).output = [])
    (hselB : getInputClk (T b) = some a) (hselC : getInputClk (T c2) = some b)
    (hchg : ¬ newOutputFreq (T a) = (T a).output_freq)
    (hpreC : (T c2).input_freq = (T b).output_freq)
    (hlocC : localInv (T c2)) :
    ((recalcF (f + 3) T a).1 a).output_freq = newOutputFreq (T a)
    ∧ ((recalcF (f + 3) T a).1 b).input_freq = newOutputFreq (T a)
    ∧ ((recalcF (f + 3) T a).1 b).output_freq = gateFreq (T b) (newOutputFreq (T a))
    ∧ ((recalcF (f + 3) T a).1 c2).input_freq = ((recalcF (f + 3) T a).1 b).output_freq
    ∧ ((recalcF (f + 3) T a).1 c2).output_freq
        = gateFreq (T c2) (((recalcF (f + 3) T a).1 b).output_freq) := by
  have hba : b ≠ a := fun h => hab h.symm
  have hca : c2 ≠ a := fun h => hac h.symm
  have hcb : c2 ≠ b := fun h => hbc h.symm
  have hf3 : f + 3 = f + 2 + 1 := rfl
  rw [hf3]
  have hgoA := recalcF_go (f + 2) T a hchg
  rw [houtA] at hgoA
  have e_t1b : (update T a { T a with output_freq := newOutputFreq (T a) }) b = T b := update_ne _ _ _ hba
  have hsel1 : getInputClk ((update T a { T a with output_freq := newOutputFreq (T a) }) b) = some a := by
    rw [e_t1b]
    exact hselB
  rw [propagateChildren_single_sel (visitF (f + 2)) a (newOutputFreq (T a))
    (update T a { T a with output_freq := newOutputFreq (T a) }) b hsel1] at hgoA
  rw [show visitF (f + 2) (update T a { T a with output_freq := newOutputFreq (T a) }) b (newOutputFreq (T a))
      = recalcF (f + 1 + 1) (update (update T a { T a with output_freq := newOutputFreq (T a) }) b { (update T a { T a with output_freq := newOutputFreq (T a) }) b with input_freq := newOutputFreq (T a) }) b from rfl] at hgoA
  have e_t2b : (update (update T a { T a with output_freq := newOutputFreq (T a) }) b { (update T a { T a with output_freq := newOutputFreq (T a) }) b with input_freq := newOutputFreq (T a) }) b = { T b with input_freq := newOutputFreq (T a) } := by
    rw [update_self, e_t1b]
  have e_t2a : (update (update T a { T a with output_freq := newOutputFreq (T a) }) b { (update T a { T a with output_freq := newOutputFreq (T a) }) b with input_freq := newOutputFreq (T a) }) a = { T a with output_freq := newOutputFreq (T a) } := by
    rw [update_ne _ _ _ hab, update_self]
  have e_t2c : (update (update T a { T a with output_freq := newOutputFreq (T a) }) b { (update T a { T a with output_freq := newOutputFreq (T a) }) b with input_freq := newOutputFreq (T a) }) c2 = T c2 := by
    rw [update_ne _ _ _ hcb, update_ne _ _ _ hca]
  by_cases hB : newOutputFreq ((update (update T a { T a with output_freq := newOutputFreq (T a) }) b { (update T a { T a with output_freq := newOutputFreq (T a) }) b with input_freq := newOutputFreq (T a) }) b) = ((update (update T a { T a with output_freq := newOutputFreq (T a) }) b { (update T a { T a with output_freq := newOutputFreq (T a) }) b with input_freq := newOutputFreq (T a) }) b).output_freq
  · rw [recalcF_stop (f + 1 + 1) (update (update T a { T a with output_freq := newOutputFreq (T a) }) b { (update T a { T a with output_freq := newOutputFreq (T a) }) b with input_freq := newOutputFreq (T a) }) b hB] at hgoA
    have hfin : (recalcF (f + 2 + 1) T a).1 = update (update T a { T a with output_freq := newOutputFreq (T a) }) b { (update T a { T a with output_freq := newOutputFreq (T a) }) b with input_freq := newOutputFreq (T a) } := by rw [hgoA]
    rw [e_t2b] at hB
    refine ⟨?_, ?_, ?_, ?_, ?_⟩
    · rw [hfin, e_t2a]
    · rw [hfin, e_t2b]
    · rw [hfin, e_t2b]
      exact hB.symm
    · rw [hfin, e_t2c, e_t2b]
      exact hpreC
    · rw [hfin, e_t2c, e_t2b]
      have h1 : gateFreq (T c2) ((T c2).input_freq)
          = gateFreq (T c2) (({ T b with input_freq := newOutputFreq (T a) }).output_freq) := by
        rw [hpreC]
      exact hlocC.trans h1
  · have hgoB := recalcF_go (f + 1) (update (update T a { T a with output_freq := newOutputFreq (T a) }) b { (update T a { T a with output_freq := newOutputFreq (T a) }) b with input_freq := newOutputFreq (T a) }) b hB
    have e_t2bo : ((update (update T a { T a with output_freq := newOutputFreq (T a) }) b { (update T a { T a with output_freq := newOutputFreq (T a) }) b with input_freq := newOutputFreq (T a) }) b).output = [c2] := by
      rw [e_t2b]
      exact houtB
    rw [e_t2bo] at hgoB
    have e_t3b : (update (update (update T a { T a with output_freq := newOutputFreq (T a) }) b { (update T a { T a with output_freq := newOutputFreq (T a) }) b with input_freq := newOutputFreq (T a) }) b { (update (update T a { T a with output_freq := newOutputFreq (T a) }) b { (update T a { T a with output_freq := newOutputFreq (T a) }) b with input_freq := newOutputFreq (T a) }) b with output_freq := newOutputFreq ((update (update T a { T a with output_freq := newOutputFreq (T a) }) b { (update T a { T a with output_freq := newOutputFreq (T a) }) b with input_freq := newOutputFreq (T a) }) b) }) b = { (update (update T a { T a with output_freq := newOutputFreq (T a) }) b { (update T a { T a with output_freq := newOutputFreq (T a) }) b with input_freq := newOutputFreq (T a) }) b with output_freq := newOutputFreq ((update (update T a { T a with output_freq := newOutputFreq (T a) }) b { (update T a { T a with output_freq := newOutputFreq (T a) }) b with input_freq := newOutputFreq (T a) }) b) } := update_self _ _ _
    have e_t3a : (update (update (update T a { T a with output_freq := newOutputFreq (T a) }) b { (update T a { T a with output_freq := newOutputFreq (T a) }) b with input_freq := newOutputFreq (T a) }) b { (update (update T a { T a with output_freq := newOutputFreq (T a) }) b { (update T a { T a with output_freq := newOutputFreq (T a) }) b with input_freq := newOutputFreq (T a) }) b with output_freq := newOutputFreq ((update (update T a { T a with output_freq := newOutputFreq (T a) }) b { (update T a { T a with output_freq := newOutputFreq (T a) }) b with input_freq := newOutputFreq (T a) }) b) }) a = { T a with output_freq := newOutputFreq (T a) } := by
      rw [update_ne _ _ _ hab, e_t2a]
    have e_t3c : (update (update (update T a { T a with output_freq := newOutputFreq (T a) }) b { (update T a { T a with output_freq := newOutputFreq (T a) }) b with input_freq := newOutputFreq (T a) }) b { (update (update T a { T a with output_freq := newOutputFreq (T a) }) b { (update T a { T a with output_freq := newOutputFreq (T a) }) b with input_freq := newOutputFreq (T a) }) b with output_freq := newOutputFreq ((update (update T a { T a with output_freq := newOutputFreq (T a) }) b { (update T a { T a with output_freq := newOutputFreq (T a) }) b with input_freq := newOutputFreq (T a) }) b) }) c2 = T c2 := by
      rw [update_ne _ _ _ hcb, e_t2c]
    have hsel3 : getInputClk ((update (update (update T a { T a with output_freq := newOutputFreq (T a) }) b { (update T a { T a with output_freq := newOutputFreq (T a) }) b with input_freq := newOutputFreq (T a) }) b { (update (update T a { T a with output_freq := newOutputFreq (T a) }) b { (update T a { T a with output_freq := newOutputFreq (T a) }) b with input_freq := newOutputFreq (T a) }) b with output_freq := newOutputFreq ((update (update T a { T a with output_freq := newOutputFreq (T a) }) b { (update T a { T a with output_freq := newOutputFreq (T a) }) b with input_freq := newOutputFreq (T a) }) b) }) c2) = some b := by
      rw [e_t3c]
      exact hselC
    rw [propagateChildren_single_sel (visitF (f + 1)) b (newOutputFreq ((update (update T a { T a with output_freq := newOutputFreq (T a) }) b { (update T a { T a with output_freq := newOutputFreq (T a) }) b with input_freq := newOutputFreq (T a) }) b))
      (update (update (update T a { T a with output_freq := newOutputFreq (T a) }) b { (update T a { T a with output_freq := newOutputFreq (T a) }) b with input_freq := newOutputFreq (T a) }) b { (update (update T a { T a with output_freq := newOutputFreq (T a) }) b { (update T a { T a with output_freq := newOutputFreq (T a) }) b with input_freq := newOutputFreq (T a) }) b with output_freq := newOutputFreq ((update (update T a { T a with output_freq := newOutputFreq (T a) }) b { (update T a { T a with output_freq := newOutputFreq (T a) }) b with input_freq := newOutputFreq (T a) }) b) }) c2 hsel3] at hgoB
    rw [show visitF (f + 1) (update (update (update T a { T a with output_freq := newOutputFreq (T a) }) b { (update T a { T a with output_freq := newOutputFreq (T a) }) b with input_freq := newOutputFreq (T a) }) b { (update (update T a { T a with output_freq := newOutputFreq (T a) }) b { (update T a { T a with output_freq := newOutputFreq (T a) }) b with input_freq := newOutputFreq (T a) }) b with output_freq := newOutputFreq ((update (update T a { T a with output_freq := newOutputFreq (T a) }) b { (update T a { T a with output_freq := newOutputFreq (T a) }) b with input_freq := newOutputFreq (T a) }) b) }) c2 (newOutputFreq ((update (update T a { T a with output_freq := newOutputFreq (T a) }) b { (update T a { T a with output_freq := newOutputFreq (T a) }) b with input_freq := newOutputFreq (T a) }) b))
        = recalcF (f + 1) (update (update (update (update T a { T a with output_freq := newOutputFreq (T a) }) b { (update T a { T a with output_freq := newOutputFreq (T a) }) b with input_freq := newOutputFreq (T a) }) b { (update (update T a { T a with output_freq := newOutputFreq (T a) }) b { (update T a { T a with output_freq := newOutputFreq (T a) }) b with input_freq := newOutputFreq (T a) }) b with output_freq := newOutputFreq ((update (update T a { T a with output_freq := newOutputFreq (T a) }) b { (update T a { T a with output_freq := newOutputFreq (T a) }) b with input_freq := newOutputFreq (T a) }) b) }) c2 { (update (update (update T a { T a with output_freq := newOutputFreq (T a) }) b { (update T a { T a with output_freq := newOutputFreq (T a) }) b with input_freq := newOutputFreq (T a) }) b { (update (update T a { T a with output_freq := newOutputFreq (T a) }) b { (update T a { T a with output_freq := newOutputFreq (T a) }) b with input_freq := newOutputFreq (T a) }) b with output_freq := newOutputFreq ((update (update T a { T a with output_freq := newOutputFreq (T a) }) b { (update T a { T a with output_freq := newOutputFreq (T a) }) b with input_freq := newOutputFreq (T a) }) b) }) c2 with input_freq := newOutputFreq ((update (update T a { T a with output_freq := newOutputFreq (T a) }) b { (update T a { T a with output_freq := newOutputFreq (T a) }) b with input_freq := newOutputFreq (T a) }) b) }) c2 from rfl] at hgoB
    have e_t4c : (update (update (update (update T a { T a with output_freq := newOutputFreq (T a) }) b { (update T a { T a with output_freq := newOutputFreq (T a) }) b with input_freq := newOutputFreq (T a) }) b { (update (update T a { T a with output_freq := newOutputFreq (T a) }) b { (update T a { T a with output_freq := newOutputFreq (T a) }) b with input_freq := newOutputFreq (T a) }) b with output_freq := newOutputFreq ((update (update T a { T a with output_freq := newOutputFreq (T a) }) b { (update T a { T a with output_freq := newOutputFreq (T a) }) b with input_freq := newOutputFreq (T a) }) b) }) c2 { (update (update (update T a { T a with output_freq := newOutputFreq (T a) }) b { (update T a { T a with output_freq := newOutputFreq (T a) }) b with input_freq := newOutputFreq (T a) }) b { (update (update T a { T a with output_freq := newOutputFreq (T a) }) b { (update T a { T a with output_freq := newOutputFreq (T a) }) b with input_freq := newOutputFreq (T a) }) b with output_freq := newOutputFreq ((update (update T a { T a with output_freq := newOutputFreq (T a) }) b { (update T a { T a with output_freq := newOutputFreq (T a) }) b with input_freq := newOutputFreq (T a) }) b) }) c2 with input_freq := newOutputFreq ((update (update T a { T a with output_freq := newOutputFreq (T a) }) b { (update T a { T a with output_freq := newOutputFreq (T a) }) b with input_freq := newOutputFreq (T a) }) b) }) c2 = { T c2 with input_freq := newOutputFreq ((update (update T a { T a with output_freq := newOutputFreq (T a) }) b { (update T a { T a with output_freq := newOutputFreq (T a) }) b with input_freq := newOutputFreq (T a) }) b) } := by
      rw [update_self, e_t3c]
    have e_t4b : (update (update (update (update T a { T a with output_freq := newOutputFreq (T a) }) b { (update T a { T a with output_freq := newOutputFreq (T a) }) b with input_freq := newOutputFreq (T a) }) b { (update (update T a { T a with output_freq := newOutputFreq (T a) }) b { (update T a { T a with output_freq := newOutputFreq (T a) }) b with input_freq := newOutputFreq (T a) }) b with output_freq := newOutputFreq ((update (update T a { T a with output_freq := newOutputFreq (T a) }) b { (update T a { T a with output_freq := newOutputFreq (T a) }) b with input_freq := newOutputFreq (T a) }) b) }) c2 { (update (update (update T a { T a with output_freq := newOutputFreq (T a) }) b { (update T a { T a with output_freq := newOutputFreq (T a) }) b with input_freq := newOutputFreq (T a) }) b { (update (update T a { T a with output_freq := newOutputFreq (T a) }) b { (update T a { T a with output_freq := newOutputFreq (T a) }) b with input_freq := newOutputFreq (T a) }) b with output_freq := newOutputFreq ((update (update T a { T a with output_freq := newOutputFreq (T a) }) b { (update T a { T a with output_freq := newOutputFreq (T a) }) b with input_freq := newOutputFreq (T a) }) b) }) c2 with input_freq := newOutputFreq ((update (update T a { T a with output_freq := newOutputFreq (T a) }) b { (update T a { T a with output_freq := newOutputFreq (T a) }) b with input_freq := newOutputFreq (T a) }) b) }) b = (update (update (update T a { T a with output_freq := newOutputFreq (T a) }) b { (update T a { T a with output_freq := newOutputFreq (T a) }) b with input_freq := newOutputFreq (T a) }) b { (update (update T a { T a with output_freq := newOutputFreq (T a) }) b { (update T a { T a with output_freq := newOutputFreq (T a) }) b with input_freq := newOutputFreq (T a) }) b with output_freq := newOutputFreq ((update (update T a { T a with output_freq := newOutputFreq (T a) }) b { (update T a { T a with output_freq := newOutputFreq (T a) }) b with input_freq := newOutputFreq (T a) }) b) }) b := update_ne _ _ _ hbc
    have e_t4a : (update (update (update (update T a { T a with output_freq := newOutputFreq (T a) }) b { (update T a { T a with output_freq := newOutputFreq (T a) }) b with input_freq := newOutputFreq (T a) }) b { (update (update T a { T a with output_freq := newOutputFreq (T a) }) b { (update T a { T a with output_freq := newOutputFreq (T a) }) b with input_freq := newOutputFreq (T a) }) b with output_freq := newOutputFreq ((update (update T a { T a with output_freq := newOutputFreq (T a) }) b { (update T a { T a with output_freq := newOutputFreq (T a) }) b with input_freq := newOutputFreq (T a) }) b) }) c2 { (update (update (update T a { T a with output_freq := newOutputFreq (T a) }) b { (update T a { T a with output_freq := newOutputFreq (T a) }) b with input_freq := newOutputFreq (T a) }) b { (update (update T a { T a with output_freq := newOutputFreq (T a) }) b { (update T a { T a with output_freq := newOutputFreq (T a) }) b with input_freq := newOutputFreq (T a) }) b with output_freq := newOutputFreq ((update (update T a { T a with output_freq := newOutputFreq (T a) }) b { (update T a { T a with output_freq := newOutputFreq (T a) }) b with input_freq := newOutputFreq (T a) }) b) }) c2 with input_freq := newOutputFreq ((update (update T a { T a with output_freq := newOutputFreq (T a) }) b { (update T a { T a with output_freq := newOutputFreq (T a) }) b with input_freq := newOutputFreq (T a) }) b) }) a = (update (update (update T a { T a with output_freq := newOutputFreq (T a) }) b { (update T a { T a with output_freq := newOutputFreq (T a) }) b with input_freq := newOutputFreq (T a) }) b { (update (update T a { T a with output_freq := newOutputFreq (T a) }) b { (update T a { T a with output_freq := newOutputFreq (T a) }) b with input_freq := newOutputFreq (T a) }) b with output_freq := newOutputFreq ((update (update T a { T a with output_freq := newOutputFreq (T a) }) b { (update T a { T a with output_freq := newOutputFreq (T a) }) b with input_freq := newOutputFreq (T a) }) b) }) a := update_ne _ _ _ hac
    by_cases hC : newOutputFreq ((update (update (update (update T a { T a with output_freq := newOutputFreq (T a) }) b { (update T a { T a with output_freq := newOutputFreq (T a) }) b with input_freq := newOutputFreq (T a) }) b { (update (update T a { T a with output_freq := newOutputFreq (T a) }) b { (update T a { T a with output_freq := newOutputFreq (T a) }) b with input_freq := newOutputFreq (T a) }) b with output_freq := newOutputFreq ((update (update T a { T a with output_freq := newOutputFreq (T a) }) b { (update T a { T a with output_freq := newOutputFreq (T a) }) b with input_freq := newOutputFreq (T a) }) b) }) c2 { (update (update (update T a { T a with output_freq := newOutputFreq (T a) }) b { (update T a { T a with output_freq := newOutputFreq (T a) }) b with input_freq := newOutputFreq (T a) }) b { (update (update T a { T a with output_freq := newOutputFreq (T a) }) b { (update T a { T a with output_freq := newOutputFreq (T a) }) b with input_freq := newOutputFreq (T a) }) b with output_freq := newOutputFreq ((update (update T a { T a with output_freq := newOutputFreq (T a) }) b { (update T a { T a with output_freq := newOutputFreq (T a) }) b with input_freq := newOutputFreq (T a) }) b) }) c2 with input_freq := newOutputFreq ((update (update T a { T a with output_freq := newOutputFreq (T a) }) b { (update T a { T a with output_freq := newOutputFreq (T a) }) b with input_freq := newOutputFreq (T a) }) b) }) c2) = ((update (update (update (update T a { T a with output_freq := newOutputFreq (T a) }) b { (update T a { T a with output_freq := newOutputFreq (T a) }) b with input_freq := newOutputFreq (T a) }) b { (update (update T a { T a with output_freq := newOutputFreq (T a) }) b { (update T a { T a with output_freq := newOutputFreq (T a) }) b with input_freq := newOutputFreq (T a) }) b with output_freq := newOutputFreq ((update (update T a { T a with output_freq := newOutputFreq (T a) }) b { (update T a { T a with output_freq := newOutputFreq (T a) }) b with input_freq := newOutputFreq (T a) }) b) }) c2 { (update (update (update T a { T a with output_freq := newOutputFreq (T a) }) b { (update T a { T a with output_freq := newOutputFreq (T a) }) b with input_freq := newOutputFreq (T a) }) b { (update (update T a { T a with output_freq := newOutputFreq (T a) }) b { (update T a { T a with output_freq := newOutputFreq (T a) }) b with input_freq := newOutputFreq (T a) }) b with output_freq := newOutputFreq ((update (update T a { T a with output_freq := newOutputFreq (T a) }) b { (update T a { T a with output_freq := newOutputFreq (T a) }) b with input_freq := newOutputFreq (T a) }) b) }) c2 with input_freq := newOutputFreq ((update (update T a { T a with output_freq := newOutputFreq (T a) }) b { (update T a { T a with output_freq := newOutputFreq (T a) }) b with input_freq := newOutputFreq (T a) }) b) }) c2).output_freq
    · rw [recalcF_stop (f + 1) (update (update (update (update T a { T a with output_freq := newOutputFreq (T a) }) b { (update T a { T a with output_freq := newOutputFreq (T a) }) b with input_freq := newOutputFreq (T a) }) b { (update (update T a { T a with output_freq := newOutputFreq (T a) }) b { (update T a { T a with output_freq := newOutputFreq (T a) }) b with input_freq := newOutputFreq (T a) }) b with output_freq := newOutputFreq ((update (update T a { T a with output_freq := newOutputFreq (T a) }) b { (update T a { T a with output_freq := newOutputFreq (T a) }) b with input_freq := newOutputFreq (T a) }) b) }) c2 { (update (update (update T a { T a with output_freq := newOutputFreq (T a) }) b { (update T a { T a with output_freq := newOutputFreq (T a) }) b with input_freq := newOutputFreq (T a) }) b { (update (update T a { T a with output_freq := newOutputFreq (T a) }) b { (update T a { T a with output_freq := newOutputFreq (T a) }) b with input_freq := newOutputFreq (T a) }) b with output_freq := newOutputFreq ((update (update T a { T a with output_freq := newOutputFreq (T a) }) b { (update T a { T a with output_freq := newOutputFreq (T a) }) b with input_freq := newOutputFreq (T a) }) b) }) c2 with input_freq := newOutputFreq ((update (update T a { T a with output_freq := newOutputFreq (T a) }) b { (update T a { T a with output_freq := newOutputFreq (T a) }) b with input_freq := newOutputFreq (T a) }) b) }) c2 hC] at hgoB
      rw [hgoB] at hgoA
      have hfin : (recalcF (f + 2 + 1) T a).1 = update (update (update (update T a { T a with output_freq := newOutputFreq (T a) }) b { (update T a { T a with output_freq := newOutputFreq (T a) }) b with input_freq := newOutputFreq (T a) }) b { (update (update T a { T a with output_freq := newOutputFreq (T a) }) b { (update T a { T a with output_freq := newOutputFreq (T a) }) b with input_freq := newOutputFreq (T a) }) b with output_freq := newOutputFreq ((update (update T a { T a with output_freq := newOutputFreq (T a) }) b { (update T a { T a with output_freq := newOutputFreq (T a) }) b with input_freq := newOutputFreq (T a) }) b) }) c2 { (update (update (update T a { T a with output_freq := newOutputFreq (T a) }) b { (update T a { T a with output_freq := newOutputFreq (T a) }) b with input_freq := newOutputFreq (T a) }) b { (update (update T a { T a with output_freq := newOutputFreq (T a) }) b { (update T a { T a with output_freq := newOutputFreq (T a) }) b with input_freq := newOutputFreq (T a) }) b with output_freq := newOutputFreq ((update (update T a { T a with output_freq := newOutputFreq (T a) }) b { (update T a { T a with output_freq := newOutputFreq (T a) }) b with input_freq := newOutputFreq (T a) }) b) }) c2 with input_freq := newOutputFreq ((update (update T a { T a with output_freq := newOutputFreq (T a) }) b { (update T a { T a with output_freq := newOutputFreq (T a) }) b with input_freq := newOutputFreq (T a) }) b) } := by rw [hgoA]
      rw [e_t4c, e_t2b] at hC
      refine ⟨?_, ?_, ?_, ?_, ?_⟩
      · rw [hfin, e_t4a, e_t3a]
      · rw [hfin, e_t4b, e_t3b, e_t2b]
      · rw [hfin, e_t4b, e_t3b, e_t2b]
        rfl
      · rw [hfin, e_t4c, e_t4b, e_t3b, e_t2b]
      · rw [hfin, e_t4c, e_t4b, e_t3b, e_t2b]
        exact hC.symm
    · have hgoC := recalcF_go f (update (update (update (update T a { T a with output_freq := newOutputFreq (T a) }) b { (update T a { T a with output_freq := newOutputFreq (T a) }) b with input_freq := newOutputFreq (T a) }) b { (update (update T a { T a with output_freq := newOutputFreq (T a) }) b { (update T a { T a with output_freq := newOutputFreq (T a) }) b with input_freq := newOutputFreq (T a) }) b with output_freq := newOutputFreq ((update (update T a { T a with output_freq := newOutputFreq (T a) }) b { (update T a { T a with output_freq := newOutputFreq (T a) }) b with input_freq := newOutputFreq (T a) }) b) }) c2 { (update (update (update T a { T a with output_freq := newOutputFreq (T a) }) b { (update T a { T a with output_freq := newOutputFreq (T a) }) b with input_freq := newOutputFreq (T a) }) b { (update (update T a { T a with output_freq := newOutputFreq (T a) }) b { (update T a { T a with output_freq := newOutputFreq (T a) }) b with input_freq := newOutputFreq (T a) }) b with output_freq := newOutputFreq ((update (update T a { T a with output_freq := newOutputFreq (T a) }) b { (update T a { T a with output_freq := newOutputFreq (T a) }) b with input_freq := newOutputFreq (T a) }) b) }) c2 with input_freq := newOutputFreq ((update (update T a { T a with output_freq := newOutputFreq (T a) }) b { (update T a { T a with output_freq := newOutputFreq (T a) }) b with input_freq := newOutputFreq (T a) }) b) }) c2 hC
      have e_t4co : ((update (update (update (update T a { T a with output_freq := newOutputFreq (T a) }) b { (update T a { T a with output_freq := newOutputFreq (T a) }) b with input_freq := newOutputFreq (T a) }) b { (update (update T a { T a with output_freq := newOutputFreq (T a) }) b { (update T a { T a with output_freq := newOutputFreq (T a) }) b with input_freq := newOutputFreq (T a) }) b with output_freq := newOutputFreq ((update (update T a { T a with output_freq := newOutputFreq (T a) }) b { (update T a { T a with output_freq := newOutputFreq (T a) }) b with input_freq := newOutputFreq (T a) }) b) }) c2 { (update (update (update T a { T a with output_freq := newOutputFreq (T a) }) b { (update T a { T a with output_freq := newOutputFreq (T a) }) b with input_freq := newOutputFreq (T a) }) b { (update (update T a { T a with output_freq := newOutputFreq (T a) }) b { (update T a { T a with output_freq := newOutputFreq (T a) }) b with input_freq := newOutputFreq (T a) }) b with output_freq := newOutputFreq ((update (update T a { T a with output_freq := newOutputFreq (T a) }) b { (update T a { T a with output_freq := newOutputFreq (T a) }) b with input_freq := newOutputFreq (T a) }) b) }) c2 with input_freq := newOutputFreq ((update (update T a { T a with output_freq := newOutputFreq (T a) }) b { (update T a { T a with output_freq := newOutputFreq (T a) }) b with input_freq := newOutputFreq (T a) }) b) }) c2).output = [] := by
        rw [e_t4c]
        exact houtC
      rw [e_t4co, propagateChildren_nil] at hgoC
      rw [hgoC] at hgoB
      rw [hgoB] at hgoA
      have hfin : (recalcF (f + 2 + 1) T a).1 = update (update (update (update (update T a { T a with output_freq := newOutputFreq (T a) }) b { (update T a { T a with output_freq := newOutputFreq (T a) }) b with input_freq := newOutputFreq (T a) }) b { (update (update T a { T a with output_freq := newOutputFreq (T a) }) b { (update T a { T a with output_freq := newOutputFreq (T a) }) b with input_freq := newOutputFreq (T a) }) b with output_freq := newOutputFreq ((update (update T a { T a with output_freq := newOutputFreq (T a) }) b { (update T a { T a with output_freq := newOutputFreq (T a) }) b with input_freq := newOutputFreq (T a) }) b) }) c2 { (update (update (update T a { T a with output_freq := newOutputFreq (T a) }) b { (update T a { T a with output_freq := newOutputFreq (T a) }) b with input_freq := newOutputFreq (T a) }) b { (update (update T a { T a with output_freq := newOutputFreq (T a) }) b { (update T a { T a with output_freq := newOutputFreq (T a) }) b with input_freq := newOutputFreq (T a) }) b with output_freq := newOutputFreq ((update (update T a { T a with output_freq := newOutputFreq (T a) }) b { (update T a { T a with output_freq := newOutputFreq (T a) }) b with input_freq := newOutputFreq (T a) }) b) }) c2 with input_freq := newOutputFreq ((update (update T a { T a with output_freq := newOutputFreq (T a) }) b { (update T a { T a with output_freq := newOutputFreq (T a) }) b with input_freq := newOutputFreq (T a) }) b) }) c2 { (update (update (update (update T a { T a with output_freq := newOutputFreq (T a) }) b { (update T a { T a with output_freq := newOutputFreq (T a) }) b with input_freq := newOutputFreq (T a) }) b { (update (update T a { T a with output_freq := newOutputFreq (T a) }) b { (update T a { T a with output_freq := newOutputFreq (T a) }) b with input_freq := newOutputFreq (T a) }) b with output_freq := newOutputFreq ((update (update T a { T a with output_freq := newOutputFreq (T a) }) b { (update T a { T a with output_freq := newOutputFreq (T a) }) b with input_freq := newOutputFreq (T a) }) b) }) c2 { (update (update (update T a { T a with output_freq := newOutputFreq (T a) }) b { (update T a { T a with output_freq := newOutputFreq (T a) }) b with input_freq := newOutputFreq (T a) }) b { (update (update T a { T a with output_freq := newOutputFreq (T a) }) b { (update T a { T a with output_freq := newOutputFreq (T a) }) b with input_freq := newOutputFreq (T a) }) b with output_freq := newOutputFreq ((update (update T a { T a with output_freq := newOutputFreq (T a) }) b { (update T a { T a with output_freq := newOutputFreq (T a) }) b with input_freq := newOutputFreq (T a) }) b) }) c2 with input_freq := newOutputFreq ((update (update T a { T a with output_freq := newOutputFreq (T a) }) b { (update T a { T a with output_freq := newOutputFreq (T a) }) b with input_freq := newOutputFreq (T a) }) b) }) c2 with output_freq := newOutputFreq ((update (update (update (update T a { T a with output_freq := newOutputFreq (T a) }) b { (update T a { T a with output_freq := newOutputFreq (T a) }) b with input_freq := newOutputFreq (T a) }) b { (update (update T a { T a with output_freq := newOutputFreq (T a) }) b { (update T a { T a with output_freq := newOutputFreq (T a) }) b with input_freq := newOutputFreq (T a) }) b with output_freq := newOutputFreq ((update (update T a { T a with output_freq := newOutputFreq (T a) }) b { (update T a { T a with output_freq := newOutputFreq (T a) }) b with input_freq := newOutputFreq (T a) }) b) }) c2 { (update (update (update T a { T a with output_freq := newOutputFreq (T a) }) b { (update T a { T a with output_freq := newOutputFreq (T a) }) b with input_freq := newOutputFreq (T a) }) b { (update (update T a { T a with output_freq := newOutputFreq (T a) }) b { (update T a { T a with output_freq := newOutputFreq (T a) }) b with input_freq := newOutputFreq (T a) }) b with output_freq := newOutputFreq ((update (update T a { T a with output_freq := newOutputFreq (T a) }) b { (update T a { T a with output_freq := newOutputFreq (T a) }) b with input_freq := newOutputFreq (T a) }) b) }) c2 with input_freq := newOutputFreq ((update (update T a { T a with output_freq := newOutputFreq (T a) }) b { (update T a { T a with output_freq := newOutputFreq (T a) }) b with input_freq := newOutputFreq (T a) }) b) }) c2) } := by rw [hgoA]
      have e_t5c : (update (update (update (update (update T a { T a with output_freq := newOutputFreq (T a) }) b { (update T a { T a with output_freq := newOutputFreq (T a) }) b with input_freq := newOutputFreq (T a) }) b { (update (update T a { T a with output_freq := newOutputFreq (T a) }) b { (update T a { T a with output_freq := newOutputFreq (T a) }) b with input_freq := newOutputFreq (T a) }) b with output_freq := newOutputFreq ((update (update T a { T a with output_freq := newOutputFreq (T a) }) b { (update T a { T a with output_freq := newOutputFreq (T a) }) b with input_freq := newOutputFreq (T a) }) b) }) c2 { (update (update (update T a { T a with output_freq := newOutputFreq (T a) }) b { (update T a { T a with output_freq := newOutputFreq (T a) }) b with input_freq := newOutputFreq (T a) }) b { (update (update T a { T a with output_freq := newOutputFreq (T a) }) b { (update T a { T a with output_freq := newOutputFreq (T a) }) b with input_freq := newOutputFreq (T a) }) b with output_freq := newOutputFreq ((update (update T a { T a with output_freq := newOutputFreq (T a) }) b { (update T a { T a with output_freq := newOutputFreq (T a) }) b with input_freq := newOutputFreq (T a) }) b) }) c2 with input_freq := newOutputFreq ((update (update T a { T a with output_freq := newOutputFreq (T a) }) b { (update T a { T a with output_freq := newOutputFreq (T a) }) b with input_freq := newOutputFreq (T a) }) b) }) c2 { (update (update (update (update T a { T a with output_freq := newOutputFreq (T a) }) b { (update T a { T a with output_freq := newOutputFreq (T a) }) b with input_freq := newOutputFreq (T a) }) b { (update (update T a { T a with output_freq := newOutputFreq (T a) }) b { (update T a { T a with output_freq := newOutputFreq (T a) }) b with input_freq := newOutputFreq (T a) }) b with output_freq := newOutputFreq ((update (update T a { T a with output_freq := newOutputFreq (T a) }) b { (update T a { T a with output_freq := newOutputFreq (T a) }) b with input_freq := newOutputFreq (T a) }) b) }) c2 { (update (update (update T a { T a with output_freq := newOutputFreq (T a) }) b { (update T a { T a with output_freq := newOutputFreq (T a) }) b with input_freq := newOutputFreq (T a) }) b { (update (update T a { T a with output_freq := newOutputFreq (T a) }) b { (update T a { T a with output_freq := newOutputFreq (T a) }) b with input_freq := newOutputFreq (T a) }) b with output_freq := newOutputFreq ((update (update T a { T a with output_freq := newOutputFreq (T a) }) b { (update T a { T a with output_freq := newOutputFreq (T a) }) b with input_freq := newOutputFreq (T a) }) b) }) c2 with input_freq := newOutputFreq ((update (update T a { T a with output_freq := newOutputFreq (T a) }) b { (update T a { T a with output_freq := newOutputFreq (T a) }) b with input_freq := newOutputFreq (T a) }) b) }) c2 with output_freq := newOutputFreq ((update (update (update (update T a { T a with output_freq := newOutputFreq (T a) }) b { (update T a { T a with output_freq := newOutputFreq (T a) }) b with input_freq := newOutputFreq (T a) }) b { (update (update T a { T a with output_freq := newOutputFreq (T a) }) b { (update T a { T a with output_freq := newOutputFreq (T a) }) b with input_freq := newOutputFreq (T a) }) b with output_freq := newOutputFreq ((update (update T a { T a with output_freq := newOutputFreq (T a) }) b { (update T a { T a with output_freq := newOutputFreq (T a) }) b with input_freq := newOutputFreq (T a) }) b) }) c2 { (update (update (update T a { T a with output_freq := newOutputFreq (T a) }) b { (update T a { T a with output_freq := newOutputFreq (T a) }) b with input_freq := newOutputFreq (T a) }) b { (update (update T a { T a with output_freq := newOutputFreq (T a) }) b { (update T a { T a with output_freq := newOutputFreq (T a) }) b with input_freq := newOutputFreq (T a) }) b with output_freq := newOutputFreq ((update (update T a { T a with output_freq := newOutputFreq (T a) }) b { (update T a { T a with output_freq := newOutputFreq (T a) }) b with input_freq := newOutputFreq (T a) }) b) }) c2 with input_freq := newOutputFreq ((update (update T a { T a with output_freq := newOutputFreq (T a) }) b { (update T a { T a with output_freq := newOutputFreq (T a) }) b with input_freq := newOutputFreq (T a) }) b) }) c2) }) c2 = { (update (update (update (update T a { T a with output_freq := newOutputFreq (T a) }) b { (update T a { T a with output_freq := newOutputFreq (T a) }) b with input_freq := newOutputFreq (T a) }) b { (update (update T a { T a with output_freq := newOutputFreq (T a) }) b { (update T a { T a with output_freq := newOutputFreq (T a) }) b with input_freq := newOutputFreq (T a) }) b with output_freq := newOutputFreq ((update (update T a { T a with output_freq := newOutputFreq (T a) }) b { (update T a { T a with output_freq := newOutputFreq (T a) }) b with input_freq := newOutputFreq (T a) }) b) }) c2 { (update (update (update T a { T a with output_freq := newOutputFreq (T a) }) b { (update T a { T a with output_freq := newOutputFreq (T a) }) b with input_freq := newOutputFreq (T a) }) b { (update (update T a { T a with output_freq := newOutputFreq (T a) }) b { (update T a { T a with output_freq := newOutputFreq (T a) }) b with input_freq := newOutputFreq (T a) }) b with output_freq := newOutputFreq ((update (update T a { T a with output_freq := newOutputFreq (T a) }) b { (update T a { T a with output_freq := newOutputFreq (T a) }) b with input_freq := newOutputFreq (T a) }) b) }) c2 with input_freq := newOutputFreq ((update (update T a { T a with output_freq := newOutputFreq (T a) }) b { (update T a { T a with output_freq := newOutputFreq (T a) }) b with input_freq := newOutputFreq (T a) }) b) }) c2 with output_freq := newOutputFreq ((update (update (update (update T a { T a with output_freq := newOutputFreq (T a) }) b { (update T a { T a with output_freq := newOutputFreq (T a) }) b with input_freq := newOutputFreq (T a) }) b { (update (update T a { T a with output_freq := newOutputFreq (T a) }) b { (update T a { T a with output_freq := newOutputFreq (T a) }) b with input_freq := newOutputFreq (T a) }) b with output_freq := newOutputFreq ((update (update T a { T a with output_freq := newOutputFreq (T a) }) b { (update T a { T a with output_freq := newOutputFreq (T a) }) b with input_freq := newOutputFreq (T a) }) b) }) c2 { (update (update (update T a { T a with output_freq := newOutputFreq (T a) }) b { (update T a { T a with output_freq := newOutputFreq (T a) }) b with input_freq := newOutputFreq (T a) }) b { (update (update T a { T a with output_freq := newOutputFreq (T a) }) b { (update T a { T a with output_freq := newOutputFreq (T a) }) b with input_freq := newOutputFreq (T a) }) b with output_freq := newOutputFreq ((update (update T a { T a with output_freq := newOutputFreq (T a) }) b { (update T a { T a with output_freq := newOutputFreq (T a) }) b with input_freq := newOutputFreq (T a) }) b) }) c2 with input_freq := newOutputFreq ((update (update T a { T a with output_freq := newOutputFreq (T a) }) b { (update T a { T a with output_freq := newOutputFreq (T a) }) b with input_freq := newOutputFreq (T a) }) b) }) c2) } := update_self _ _ _
      have e_t5b : (update (update (update (update (update T a { T a with output_freq := newOutputFreq (T a) }) b { (update T a { T a with output_freq := newOutputFreq (T a) }) b with input_freq := newOutputFreq (T a) }) b { (update (update T a { T a with output_freq := newOutputFreq (T a) }) b { (update T a { T a with output_freq := newOutputFreq (T a) }) b with input_freq := newOutputFreq (T a) }) b with output_freq := newOutputFreq ((update (update T a { T a with output_freq := newOutputFreq (T a) }) b { (update T a { T a with output_freq := newOutputFreq (T a) }) b with input_freq := newOutputFreq (T a) }) b) }) c2 { (update (update (update T a { T a with output_freq := newOutputFreq (T a) }) b { (update T a { T a with output_freq := newOutputFreq (T a) }) b with input_freq := newOutputFreq (T a) }) b { (update (update T a { T a with output_freq := newOutputFreq (T a) }) b { (update T a { T a with output_freq := newOutputFreq (T a) }) b with input_freq := newOutputFreq (T a) }) b with output_freq := newOutputFreq ((update (update T a { T a with output_freq := newOutputFreq (T a) }) b { (update T a { T a with output_freq := newOutputFreq (T a) }) b with input_freq := newOutputFreq (T a) }) b) }) c2 with input_freq := newOutputFreq ((update (update T a { T a with output_freq := newOutputFreq (T a) }) b { (update T a { T a with output_freq := newOutputFreq (T a) }) b with input_freq := newOutputFreq (T a) }) b) }) c2 { (update (update (update (update T a { T a with output_freq := newOutputFreq (T a) }) b { (update T a { T a with output_freq := newOutputFreq (T a) }) b with input_freq := newOutputFreq (T a) }) b { (update (update T a { T a with output_freq := newOutputFreq (T a) }) b { (update T a { T a with output_freq := newOutputFreq (T a) }) b with input_freq := newOutputFreq (T a) }) b with output_freq := newOutputFreq ((update (update T a { T a with output_freq := newOutputFreq (T a) }) b { (update T a { T a with output_freq := newOutputFreq (T a) }) b with input_freq := newOutputFreq (T a) }) b) }) c2 { (update (update (update T a { T a with output_freq := newOutputFreq (T a) }) b { (update T a { T a with output_freq := newOutputFreq (T a) }) b with input_freq := newOutputFreq (T a) }) b { (update (update T a { T a with output_freq := newOutputFreq (T a) }) b { (update T a { T a with output_freq := newOutputFreq (T a) }) b with input_freq := newOutputFreq (T a) }) b with output_freq := newOutputFreq ((update (update T a { T a with output_freq := newOutputFreq (T a) }) b { (update T a { T a with output_freq := newOutputFreq (T a) }) b with input_freq := newOutputFreq (T a) }) b) }) c2 with input_freq := newOutputFreq ((update (update T a { T a with output_freq := newOutputFreq (T a) }) b { (update T a { T a with output_freq := newOutputFreq (T a) }) b with input_freq := newOutputFreq (T a) }) b) }) c2 with output_freq := newOutputFreq ((update (update (update (update T a { T a with output_freq := newOutputFreq (T a) }) b { (update T a { T a with output_freq := newOutputFreq (T a) }) b with input_freq := newOutputFreq (T a) }) b { (update (update T a { T a with output_freq := newOutputFreq (T a) }) b { (update T a { T a with output_freq := newOutputFreq (T a) }) b with input_freq := newOutputFreq (T a) }) b with output_freq := newOutputFreq ((update (update T a { T a with output_freq := newOutputFreq (T a) }) b { (update T a { T a with output_freq := newOutputFreq (T a) }) b with input_freq := newOutputFreq (T a) }) b) }) c2 { (update (update (update T a { T a with output_freq := newOutputFreq (T a) }) b { (update T a { T a with output_freq := newOutputFreq (T a) }) b with input_freq := newOutputFreq (T a) }) b { (update (update T a { T a with output_freq := newOutputFreq (T a) }) b { (update T a { T a with output_freq := newOutputFreq (T a) }) b with input_freq := newOutputFreq (T a) }) b with output_freq := newOutputFreq ((update (update T a { T a with output_freq := newOutputFreq (T a) }) b { (update T a { T a with output_freq := newOutputFreq (T a) }) b with input_freq := newOutputFreq (T a) }) b) }) c2 with input_freq := newOutputFreq ((update (update T a { T a with output_freq := newOutputFreq (T a) }) b { (update T a { T a with output_freq := newOutputFreq (T a) }) b with input_freq := newOutputFreq (T a) }) b) }) c2) }) b = (update (update (update (update T a { T a with output_freq := newOutputFreq (T a) }) b { (update T a { T a with output_freq := newOutputFreq (T a) }) b with input_freq := newOutputFreq (T a) }) b { (update (update T a { T a with output_freq := newOutputFreq (T a) }) b { (update T a { T a with output_freq := newOutputFreq (T a) }) b with input_freq := newOutputFreq (T a) }) b with output_freq := newOutputFreq ((update (update T a { T a with output_freq := newOutputFreq (T a) }) b { (update T a { T a with output_freq := newOutputFreq (T a) }) b with input_freq := newOutputFreq (T a) }) b) }) c2 { (update (update (update T a { T a with output_freq := newOutputFreq (T a) }) b { (update T a { T a with output_freq := newOutputFreq (T a) }) b with input_freq := newOutputFreq (T a) }) b { (update (update T a { T a with output_freq := newOutputFreq (T a) }) b { (update T a { T a with output_freq := newOutputFreq (T a) }) b with input_freq := newOutputFreq (T a) }) b with output_freq := newOutputFreq ((update (update T a { T a with output_freq := newOutputFreq (T a) }) b { (update T a { T a with output_freq := newOutputFreq (T a) }) b with input_freq := newOutputFreq (T a) }) b) }) c2 with input_freq := newOutputFreq ((update (update T a { T a with output_freq := newOutputFreq (T a) }) b { (update T a { T a with output_freq := newOutputFreq (T a) }) b with input_freq := newOutputFreq (T a) }) b) }) b := update_ne _ _ _ hbc
      have e_t5a : (update (update (update (update (update T a { T a with output_freq := newOutputFreq (T a) }) b { (update T a { T a with output_freq := newOutputFreq (T a) }) b with input_freq := newOutputFreq (T a) }) b { (update (update T a { T a with output_freq := newOutputFreq (T a) }) b { (update T a { T a with output_freq := newOutputFreq (T a) }) b with input_freq := newOutputFreq (T a) }) b with output_freq := newOutputFreq ((update (update T a { T a with output_freq := newOutputFreq (T a) }) b { (update T a { T a with output_freq := newOutputFreq (T a) }) b with input_freq := newOutputFreq (T a) }) b) }) c2 { (update (update (update T a { T a with output_freq := newOutputFreq (T a) }) b { (update T a { T a with output_freq := newOutputFreq (T a) }) b with input_freq := newOutputFreq (T a) }) b { (update (update T a { T a with output_freq := newOutputFreq (T a) }) b { (update T a { T a with output_freq := newOutputFreq (T a) }) b with input_freq := newOutputFreq (T a) }) b with output_freq := newOutputFreq ((update (update T a { T a with output_freq := newOutputFreq (T a) }) b { (update T a { T a with output_freq := newOutputFreq (T a) }) b with input_freq := newOutputFreq (T a) }) b) }) c2 with input_freq := newOutputFreq ((update (update T a { T a with output_freq := newOutputFreq (T a) }) b { (update T a { T a with output_freq := newOutputFreq (T a) }) b with input_freq := newOutputFreq (T a) }) b) }) c2 { (update (update (update (update T a { T a with output_freq := newOutputFreq (T a) }) b { (update T a { T a with output_freq := newOutputFreq (T a) }) b with input_freq := newOutputFreq (T a) }) b { (update (update T a { T a with output_freq := newOutputFreq (T a) }) b { (update T a { T a with output_freq := newOutputFreq (T a) }) b with input_freq := newOutputFreq (T a) }) b with output_freq := newOutputFreq ((update (update T a { T a with output_freq := newOutputFreq (T a) }) b { (update T a { T a with output_freq := newOutputFreq (T a) }) b with input_freq := newOutputFreq (T a) }) b) }) c2 { (update (update (update T a { T a with output_freq := newOutputFreq (T a) }) b { (update T a { T a with output_freq := newOutputFreq (T a) }) b with input_freq := newOutputFreq (T a) }) b { (update (update T a { T a with output_freq := newOutputFreq (T a) }) b { (update T a { T a with output_freq := newOutputFreq (T a) }) b with input_freq := newOutputFreq (T a) }) b with output_freq := newOutputFreq ((update (update T a { T a with output_freq := newOutputFreq (T a) }) b { (update T a { T a with output_freq := newOutputFreq (T a) }) b with input_freq := newOutputFreq (T a) }) b) }) c2 with input_freq := newOutputFreq ((update (update T a { T a with output_freq := newOutputFreq (T a) }) b { (update T a { T a with output_freq := newOutputFreq (T a) }) b with input_freq := newOutputFreq (T a) }) b) }) c2 with output_freq := newOutputFreq ((update (update (update (update T a { T a with output_freq := newOutputFreq (T a) }) b { (update T a { T a with output_freq := newOutputFreq (T a) }) b with input_freq := newOutputFreq (T a) }) b { (update (update T a { T a with output_freq := newOutputFreq (T a) }) b { (update T a { T a with output_freq := newOutputFreq (T a) }) b with input_freq := newOutputFreq (T a) }) b with output_freq := newOutputFreq ((update (update T a { T a with output_freq := newOutputFreq (T a) }) b { (update T a { T a with output_freq := newOutputFreq (T a) }) b with input_freq := newOutputFreq (T a) }) b) }) c2 { (update (update (update T a { T a with output_freq := newOutputFreq (T a) }) b { (update T a { T a with output_freq := newOutputFreq (T a) }) b with input_freq := newOutputFreq (T a) }) b { (update (update T a { T a with output_freq := newOutputFreq (T a) }) b { (update T a { T a with output_freq := newOutputFreq (T a) }) b with input_freq := newOutputFreq (T a) }) b with output_freq := newOutputFreq ((update (update T a { T a with output_freq := newOutputFreq (T a) }) b { (update T a { T a with output_freq := newOutputFreq (T a) }) b with input_freq := newOutputFreq (T a) }) b) }) c2 with input_freq := newOutputFreq ((update (update T a { T a with output_freq := newOutputFreq (T a) }) b { (update T a { T a with output_freq := newOutputFreq (T a) }) b with input_freq := newOutputFreq (T a) }) b) }) c2) }) a = (update (update (update (update T a { T a with output_freq := newOutputFreq (T a) }) b { (update T a { T a with output_freq := newOutputFreq (T a) }) b with input_freq := newOutputFreq (T a) }) b { (update (update T a { T a with output_freq := newOutputFreq (T a) }) b { (update T a { T a with output_freq := newOutputFreq (T a) }) b with input_freq := newOutputFreq (T a) }) b with output_freq := newOutputFreq ((update (update T a { T a with output_freq := newOutputFreq (T a) }) b { (update T a { T a with output_freq := newOutputFreq (T a) }) b with input_freq := newOutputFreq (T a) }) b) }) c2 { (update (update (update T a { T a with output_freq := newOutputFreq (T a) }) b { (update T a { T a with output_freq := newOutputFreq (T a) }) b with input_freq := newOutputFreq (T a) }) b { (update (update T a { T a with output_freq := newOutputFreq (T a) }) b { (update T a { T a with output_freq := newOutputFreq (T a) }) b with input_freq := newOutputFreq (T a) }) b with output_freq := newOutputFreq ((update (update T a { T a with output_freq := newOutputFreq (T a) }) b { (update T a { T a with output_freq := newOutputFreq (T a) }) b with input_freq := newOutputFreq (T a) }) b) }) c2 with input_freq := newOutputFreq ((update (update T a { T a with output_freq := newOutputFreq (T a) }) b { (update T a { T a with output_freq := newOutputFreq (T a) }) b with input_freq := newOutputFreq (T a) }) b) }) a := update_ne _ _ _ hac
      refine ⟨?_, ?_, ?_, ?_, ?_⟩
      · rw [hfin, e_t5a, e_t4a, e_t3a]
      · rw [hfin, e_t5b, e_t4b, e_t3b, e_t2b]
      · rw [hfin, e_t5b, e_t4b, e_t3b, e_t2b]
        rfl
      · rw [hfin, e_t5c, e_t5b, e_t4c, e_t4b, e_t3b, e_t2b]
      · rw [hfin, e_t5c, e_t5b, e_t4c, e_t4b, e_t3b, e_t2b]
        rfl

/-- C2: for a chain A -> B -> C in which B's selected input is A and C's selected
input is B (and each link is the sole fan-out edge), any mutation at A — modelled
as replacing A's record by an arbitrary record ca, which covers
clktree_set_scale, clktree_set_enabled and clktree_set_input_freq since each of
them is recalcF on a field-updated heap — whose recomputed output differs from
the stored one updates B and C before the call returns: B's input becomes A's
new output, B's output becomes B's enabled gate and multiplier/divisor ratio
applied to that value, and C likewise one step further along the path. -/
theorem chain_propagation_correct (f : Nat) (t : ClkTree) (a b c2 : Nat) (ca : Clk)
    (hab : a ≠ b) (hbc : b ≠ c2) (hac : a ≠ c2)
    (houtA : ca.output = [b]) (houtB : (t b).output = [c2]) (houtC : (t c2).output = [])
    (hselB : getInputClk (t b) = some a) (hselC : getInputClk (t c2) = some b)
    (hchg : ¬ newOutputFreq ca = ca.output_freq)
    (hpreC : (t c2).input_freq = (t b).output_freq)
    (hlocC : localInv (t c2)) :
    ((recalcF (f + 3) (update t a ca) a).1 a).output_freq = newOutputFreq ca
    ∧ ((recalcF (f + 3) (update t a ca) a).1 b).input_freq = newOutputFreq ca
    ∧ ((recalcF (f + 3) (update t a ca) a).1 b).output_freq
        = gateFreq (t b) (newOutputFreq ca)
    ∧ ((recalcF (f + 3) (update t a ca) a).1 c2).input_freq
        = ((recalcF (f + 3) (update t a ca) a).1 b).output_freq
    ∧ ((recalcF (f + 3) (update t a ca) a).1 c2).output_freq
        = gateFreq (t c2) (((recalcF (f + 3) (update t a ca) a).1 b).output_freq) := by
  have hba : b ≠ a := fun h => hab h.symm
  have hca : c2 ≠ a := fun h => hac h.symm
  have h := chain_recalc f (update t a ca) a b c2 hab hbc hac
    (by rw [update_self]; exact houtA)
    (by rw [update_ne _ _ _ hba]; exact houtB)
    (by rw [update_ne _ _ _ hca]; exact houtC)
    (by rw [update_ne _ _ _ hba]; exact hselB)
    (by rw [update_ne _ _ _ hca]; exact hselC)
    (by rw [update_self]; exact hchg)
    (by rw [update_ne _ _ _ hca, update_ne _ _ _ hba]; exact hpreC)
    (by rw [update_ne _ _ _ hca]; exact hlocC)
  rw [update_self, update_ne t a ca hba, update_ne t a ca hca] at h
  exact h

/-- A concrete three-node chain: node 0 is an 8 MHz source feeding node 1, node 1
doubles it (multiplier 2, divisor 1, selecting node 0) and feeds node 2, node 2
halves it (multiplier 1, divisor 2, selecting node 1) with no fan-out. -/
def chainTree : ClkTree := fun j =>
  if j = 0 then
    { baseClk with
      name := "A", input_freq := 8000000, output_freq := 8000000, output := [1] }
  else if j = 1 then
    { baseClk with
      name := "B", multiplier := 2, divisor := 1,
      input := [none, some 0], selected_input := 0,
      input_freq := 8000000, output_freq := 16000000, output := [2] }
  else
    { baseClk with
      name := "C", multiplier := 1, divisor := 2,
      input := [none, some 1], selected_input := 0,
      input_freq := 16000000, output_freq := 8000000 }

/-- Witness for C2: tripling node 0's multiplier in the concrete chain drives
24 MHz into node 1, 48 MHz out of it, and 24 MHz out of node 2. -/
theorem chain_propagation_correct_witness :
    (((recalcF (0 + 3) (update chainTree 0 { chainTree 0 with multiplier := 3 }) 0).1 0).output_freq
        = newOutputFreq { chainTree 0 with multiplier := 3 }
      ∧ ((recalcF (0 + 3) (update chainTree 0 { chainTree 0 with multiplier := 3 }) 0).1 1).input_freq
        = newOutputFreq { chainTree 0 with multiplier := 3 }
      ∧ ((recalcF (0 + 3) (update chainTree 0 { chainTree 0 with multiplier := 3 }) 0).1 1).output_freq
        = gateFreq (chainTree 1) (newOutputFreq { chainTree 0 with multiplier := 3 })
      ∧ ((recalcF (0 + 3) (update chainTree 0 { chainTree 0 with multiplier := 3 }) 0).1 2).input_freq
        = ((recalcF (0 + 3) (update chainTree 0 { chainTree 0 with multiplier := 3 }) 0).1 1).output_freq
      ∧ ((recalcF (0 + 3) (update chainTree 0 { chainTree 0 with multiplier := 3 }) 0).1 2).output_freq
        = gateFreq (chainTree 2) (((recalcF (0 + 3) (update chainTree 0 { chainTree 0 with multiplier := 3 }) 0).1 1).output_freq))
    ∧ ((recalcF (0 + 3) (update chainTree 0 { chainTree 0 with multiplier := 3 }) 0).1 2).output_freq
        = 24000000 :=
  ⟨chain_propagation_correct 0 chainTree 0 1 2 { chainTree 0 with multiplier := 3 }
    (by decide) (by decide) (by decide) (by decide) (by decide) (by decide)
    (by decide) (by decide) (by decide) (by decide) (by decide),
   by decide⟩
